import Mathlib

/-!
Verification development for the VKR document formatter
(paragraph classification + formatting pipeline).

The Python sources are embedded shallowly:

* Python strings are Lean `String` / `List Char`; the `str` methods used by
  the code (`strip`, `upper`, `lower`, `split`, `in`, slicing) are modelled
  by the `Py` helpers below, covering ASCII and the Cyrillic block actually
  processed by the program.
* The regular expressions from the sources are embedded as values of a small
  backtracking regex calculus `RE` (character classes, sequencing,
  alternation, star, end-of-string); `re.match` and `re.search` become
  `RE.matchAt` / `RE.search`.  Python's `.` is "any char except newline",
  `\s`, `\d`, `[А-ЯЁ]`, ... become the corresponding character classes.
* Mutable objects (`DocumentState`, paragraphs, the statistics dict) become
  records updated functionally; methods that mutate state return the new
  state.
* Python `dict` configuration is modelled by typed records carrying exactly
  the keys the code reads; the two fallible dict lookups on requirement
  values (`ALIGN_MAP[...]`) are `Option`-valued, so formatter functions that
  may raise `KeyError` return `Option Paragraph` (`none` = exception).
* Lengths (`Cm`) are integers in hundredths of a centimetre, spacings (`Pt`)
  integers in points, line-spacing multipliers integers in tenths
  (`15` = 1.5); only equality of these values matters to the theorems.
* Float comparisons `upper_ratio > 0.7` / `> 0.8` on ratios of character
  counts are modelled by the exact integer comparisons `10 * u > 7 * n` /
  `5 * u > 4 * n` (the float and rational comparisons agree at every ratio
  the heuristics can produce at realistic lengths, including the boundary
  ratios 7/10 and 4/5, since the float literals 0.7 and 0.8 round down).
-/

namespace VKR

/-! ### Python string primitives -/

/-- Python `\s` / `str.strip` whitespace (the ASCII whitespace class). -/
def pySpace (c : Char) : Bool :=
  c == ' ' || c == '\t' || c == '\n' || c == '\x0d' || c == '\x0c' || c == '\x0b'

/-- ASCII decimal digit, Python `\d` as used on the program's inputs. -/
def pyDigit (c : Char) : Bool :=
  '0' ≤ c && c ≤ '9'

/-- Uppercase Cyrillic `[А-ЯЁ]` (U+0410..U+042F plus Ё U+0401). -/
def cyrUpper (c : Char) : Bool :=
  (0x410 ≤ c.toNat && c.toNat ≤ 0x42F) || c.toNat == 0x401

/-- Lowercase Cyrillic `[а-яё]` (U+0430..U+044F plus ё U+0451). -/
def cyrLower (c : Char) : Bool :=
  (0x430 ≤ c.toNat && c.toNat ≤ 0x44F) || c.toNat == 0x451

/-- ASCII uppercase letter. -/
def asciiUpper (c : Char) : Bool :=
  'A' ≤ c && c ≤ 'Z'

/-- ASCII lowercase letter. -/
def asciiLower (c : Char) : Bool :=
  'a' ≤ c && c ≤ 'z'

/-- Python `str.isalpha` over the alphabets the program processes. -/
def pyAlpha (c : Char) : Bool :=
  asciiUpper c || asciiLower c || cyrUpper c || cyrLower c

/-- Python `str.isupper` for a single character, over the same alphabets. -/
def pyIsUpper (c : Char) : Bool :=
  asciiUpper c || cyrUpper c

/-- Python `str.upper` on one character (ASCII + Cyrillic incl. ё → Ё). -/
def pyUpperChar (c : Char) : Char :=
  if asciiLower c then Char.ofNat (c.toNat - 0x20)
  else if 0x430 ≤ c.toNat && c.toNat ≤ 0x44F then Char.ofNat (c.toNat - 0x20)
  else if c.toNat == 0x451 then Char.ofNat 0x401
  else c

/-- Python `str.lower` on one character (ASCII + Cyrillic incl. Ё → ё). -/
def pyLowerChar (c : Char) : Char :=
  if asciiUpper c then Char.ofNat (c.toNat + 0x20)
  else if 0x410 ≤ c.toNat && c.toNat ≤ 0x42F then Char.ofNat (c.toNat + 0x20)
  else if c.toNat == 0x401 then Char.ofNat 0x451
  else c

/-- Python `str.strip()` on a character list. -/
def pyStripL (l : List Char) : List Char :=
  ((l.dropWhile pySpace).reverse.dropWhile pySpace).reverse

/-- Python `str.strip()`. -/
def pyStrip (s : String) : String :=
  ⟨pyStripL s.data⟩

/-- Python `str.upper()`. -/
def pyUpper (s : String) : String :=
  ⟨s.data.map pyUpperChar⟩

/-- Python `str.lower()`. -/
def pyLower (s : String) : String :=
  ⟨s.data.map pyLowerChar⟩

/-- Python substring test `needle in hay` on character lists. -/
def containsSub (nd : List Char) : List Char → Bool
  | [] => nd.isEmpty
  | c :: t => List.isPrefixOf nd (c :: t) || containsSub nd t

/-- Python substring test `needle in hay` on strings. -/
def strContains (hay nd : String) : Bool :=
  containsSub nd.data hay.data

/-- Python `str.split()` (split on whitespace runs, dropping empty parts). -/
def pySplitWs : List Char → List (List Char)
  | [] => []
  | c :: t =>
    if pySpace c then pySplitWs t
    else
      match pySplitWs t with
      | [] => [[c]]
      | w :: ws => if pySpace (t.headD ' ') then [c] :: w :: ws else (c :: w) :: ws

/-- Python `int(w)` succeeds: optional sign followed by one or more digits
(the shapes produced by `str.split` on the program's inputs). -/
def pyIntAccepts (w : List Char) : Bool :=
  match w with
  | [] => false
  | c :: t =>
    if c == '+' || c == '-' then !t.isEmpty && t.all pyDigit
    else (c :: t).all pyDigit

/-! ### A small backtracking regex calculus

`RE` embeds exactly the regex features the sources use: character classes,
literals, sequencing, alternation, `*`/`+`, optional parts, and the `$`
anchor (constructor `eof`).  `sufsAfter` returns every suffix left over
after a (possibly partial) match — full backtracking — with a fuel argument
that strictly bounds the recursion; `fuelFor` is a generous bound under
which the enumeration is exhaustive (the star case only recurses on
strictly shorter inputs, so `(size + 2) * (length + 2)` steps suffice). -/

inductive RE where
  | eps
  | eof
  | cls (p : Char → Bool)
  | seq (a b : RE)
  | alt (a b : RE)
  | star (r : RE)

namespace RE

/-- Structural size of a regex, used only to compute the fuel bound. -/
def size : RE → Nat
  | .eps => 1
  | .eof => 1
  | .cls _ => 1
  | .seq a b => size a + size b + 1
  | .alt a b => size a + size b + 1
  | .star r => size r + 1

/-- All suffixes remaining after matching `r` against a prefix of `s`
(backtracking enumeration, bounded by `fuel`). -/
def sufsAfter (fuel : Nat) (r : RE) (s : List Char) : List (List Char) :=
  match fuel with
  | 0 => []
  | fuel + 1 =>
    match r with
    | .eps => [s]
    | .eof => if s.isEmpty then [s] else []
    | .cls p =>
      match s with
      | [] => []
      | c :: t => if p c then [t] else []
    | .seq a b => (sufsAfter fuel a s).flatMap (sufsAfter fuel b)
    | .alt a b => sufsAfter fuel a s ++ sufsAfter fuel b s
    | .star r0 =>
      s :: ((sufsAfter fuel r0 s).filter (fun t => t.length < s.length)).flatMap
        (sufsAfter fuel (.star r0))

/-- Fuel that makes `sufsAfter` exhaustive on input `s`. -/
def fuelFor (r : RE) (s : List Char) : Nat :=
  (size r + 2) * (s.length + 2)

/-- Python `re.match(r, s)` (anchored at the start, not necessarily total). -/
def matchAt (r : RE) (s : String) : Bool :=
  !(sufsAfter (fuelFor r s.data) r s.data).isEmpty

/-- Helper for `search`: try to match at every start position. -/
def searchL (r : RE) : List Char → Bool
  | [] => !(sufsAfter (fuelFor r []) r []).isEmpty
  | c :: t => !(sufsAfter (fuelFor r (c :: t)) r (c :: t)).isEmpty || searchL r t

/-- Python `re.search(r, s)` (match anywhere). -/
def search (r : RE) (s : String) : Bool :=
  searchL r s.data

/-- Single-character literal. -/
def chr (c : Char) : RE :=
  .cls (· == c)

/-- Case-insensitive single-character literal (`re.IGNORECASE`). -/
def chrCI (c : Char) : RE :=
  .cls (fun x => pyLowerChar x == pyLowerChar c)

/-- String literal. -/
def lit (s : String) : RE :=
  s.data.foldr (fun c r => .seq (chr c) r) .eps

/-- Case-insensitive string literal. -/
def litCI (s : String) : RE :=
  s.data.foldr (fun c r => .seq (chrCI c) r) .eps

/-- `r+`. -/
def plus (r : RE) : RE :=
  .seq r (.star r)

/-- `r?`. -/
def opt (r : RE) : RE :=
  .alt r .eps

/-- Python `.` — any character but a newline. -/
def anyCh : RE :=
  .cls (· != '\n')

end RE

/-! ### FormattingConstants

The marker lists below are the in-repo `FormattingConstants` class from
`vkr_formatter_refactored.py`, which defines the constants that
`content_detector.py` imports under the module name `formatting_constants`
(`CONTENT_HEADERS`, `MAIN_CONTENT_MARKERS`, `TITLE_PAGE_MARKERS`,
`SERVICE_MARKERS`). -/

namespace FormattingConstants

def CONTENT_HEADERS : List String :=
  ["СОДЕРЖАНИЕ", "ОГЛАВЛЕНИЕ", "CONTENTS", "TABLE OF CONTENTS"]

def MAIN_CONTENT_MARKERS : List String :=
  ["ВВЕДЕНИЕ", "ГЛАВА 1", "1. ВВЕДЕНИЕ", "1 ВВЕДЕНИЕ",
   "CHAPTER 1", "РЕФЕРАТ", "ABSTRACT", "АННОТАЦИЯ"]

def TITLE_PAGE_MARKERS : List String :=
  ["ДИПЛОМНАЯ РАБОТА", "ВЫПУСКНАЯ КВАЛИФИКАЦИОННАЯ РАБОТА",
   "МИНИСТЕРСТВО ОБРАЗОВАНИЯ", "МИНИСТЕРСТВО НАУКИ",
   "ФЕДЕРАЛЬНОЕ ГОСУДАРСТВЕННОЕ", "ОБРАЗОВАТЕЛЬНОЕ УЧРЕЖДЕНИЕ",
   "ВЫСШЕГО ОБРАЗОВАНИЯ", "КАФЕДРА", "НАПРАВЛЕНИЕ ПОДГОТОВКИ",
   "ПРОФИЛЬ", "ТЕМА:", "ВЫПОЛНИЛ:", "СТУДЕНТ", "ГРУППЫ",
   "НАУЧНЫЙ РУКОВОДИТЕЛЬ", "КОНСУЛЬТАНТ", "ДОПУЩЕН К ЗАЩИТЕ",
   "РАБОТА ВЫПОЛНЕНА", "ОЦЕНКА", "ПОДПИСЬ"]

def SERVICE_MARKERS : List String :=
  ["ЗАДАНИЕ НА", "КАЛЕНДАРНЫЙ ПЛАН", "КАЛЕНДАРНО-ТЕМАТИЧЕСКИЙ",
   "ТЕХНИЧЕСКОЕ ЗАДАНИЕ", "УТВЕРЖДАЮ", "РАССМОТРЕНО",
   "СОГЛАСОВАНО", "ОТЗЫВ", "РЕЦЕНЗИЯ", "СПРАВКА О ВНЕДРЕНИИ",
   "АКТ О ВНЕДРЕНИИ"]

end FormattingConstants

/-! ### ContentDetector (`content_detector.py`)

Each Python regex literal is embedded as an `RE` value; the comment on each
definition quotes the original pattern. -/

namespace ContentDetector

open RE

/-- `[А-ЯЁ\s]`. -/
def clsCyrUpWs (c : Char) : Bool := cyrUpper c || pySpace c

/-- `[А-ЯЁа-яё\s]`. -/
def clsCyrWs (c : Char) : Bool := cyrUpper c || cyrLower c || pySpace c

/-- `[А-ЯЁа-яё\s,]`. -/
def clsCyrWsComma (c : Char) : Bool := clsCyrWs c || c == ','

/-- The five references keywords vetoing title-page / service detection. -/
def referencesVetoKeywords : List String :=
  ["СПИСОК ИСПОЛЬЗОВАННЫХ ИСТОЧНИКОВ", "СПИСОК ЛИТЕРАТУРЫ",
   "БИБЛИОГРАФИЧЕСКИЙ СПИСОК", "REFERENCES", "BIBLIOGRAPHY"]

/-- `^\d+\.\s*[А-ЯЁ\s]+$` — "1. ВВЕДЕНИЕ". -/
def reNumDotCyr : RE :=
  .seq (plus (.cls pyDigit)) (.seq (chr '.')
    (.seq (.star (.cls pySpace)) (.seq (plus (.cls clsCyrUpWs)) .eof)))

/-- `^ГЛАВА\s+\d+` — "ГЛАВА 1". -/
def reGlavaNum : RE :=
  .seq (lit "ГЛАВА") (.seq (plus (.cls pySpace)) (plus (.cls pyDigit)))

/-- `^(ВВЕДЕНИЕ|ЗАКЛЮЧЕНИЕ|РЕФЕРАТ)$`. -/
def reSpecialH1 : RE :=
  .seq (.alt (lit "ВВЕДЕНИЕ") (.alt (lit "ЗАКЛЮЧЕНИЕ") (lit "РЕФЕРАТ"))) .eof

/-- `^[IVX]+\.\s*[А-ЯЁ\s]+$` — "I. ВВЕДЕНИЕ". -/
def reRomanDotCyr : RE :=
  .seq (plus (.cls (fun c => c == 'I' || c == 'V' || c == 'X')))
    (.seq (chr '.') (.seq (.star (.cls pySpace)) (.seq (plus (.cls clsCyrUpWs)) .eof)))

/-- The four `h1_patterns` vetoes inside `is_title_page_content`. -/
def titleVetoH1Patterns : List RE :=
  [reNumDotCyr, reGlavaNum, reSpecialH1, reRomanDotCyr]

/-- `[А-ЯЁ][а-яё]+\s+[А-ЯЁ]\.[А-ЯЁ]\.` — "Иванов И.И." (re.search). -/
def reFioInitials : RE :=
  .seq (.cls cyrUpper) (.seq (plus (.cls cyrLower)) (.seq (plus (.cls pySpace))
    (.seq (.cls cyrUpper) (.seq (chr '.') (.seq (.cls cyrUpper) (chr '.'))))))

/-- `[А-ЯЁ][а-яё]+\s+[А-ЯЁ][а-яё]+\s+[А-ЯЁ][а-яё]+` — full name (re.search). -/
def reFioFull : RE :=
  .seq (.cls cyrUpper) (.seq (plus (.cls cyrLower)) (.seq (plus (.cls pySpace))
    (.seq (.cls cyrUpper) (.seq (plus (.cls cyrLower)) (.seq (plus (.cls pySpace))
      (.seq (.cls cyrUpper) (plus (.cls cyrLower))))))))

/-- The image-placeholder tokens excluded from the short-uppercase heuristic. -/
def imagePlaceholders : List String :=
  ["[ЗДЕСЬ ДОЛЖНО БЫТЬ ИЗОБРАЖЕНИЕ]", "[ВТОРОЕ ИЗОБРАЖЕНИЕ]", "[ИЗОБРАЖЕНИЕ]",
   "[IMAGE]", "[РИСУНОК]", "[FIGURE]", "[РЕАЛЬНОЕ ИЗОБРАЖЕНИЕ АРХИТЕКТУРЫ]",
   "[ИЗОБРАЖЕНИЕ В РАЗДЕЛЕ 2]", "[ИЗОБРАЖЕНИЕ 1]", "[ИЗОБРАЖЕНИЕ 2]",
   "[ИЗОБРАЖЕНИЕ 3]", "[ИЗОБРАЖЕНИЕ В ПЕРВОЙ ГЛАВЕ]",
   "[ИЗОБРАЖЕНИЕ ВО ВТОРОЙ ГЛАВЕ]"]

/-- `^\d+\.` — the chapter-number veto on the short-uppercase heuristic. -/
def reNumDot : RE :=
  .seq (plus (.cls pyDigit)) (chr '.')

/-- `ContentDetector.is_title_page_content`. -/
def isTitlePageContent (text : String) : Bool :=
  let textUpper := pyUpper text
  if referencesVetoKeywords.any (fun kw => strContains textUpper kw) then false
  else if titleVetoH1Patterns.any (fun r => r.matchAt (pyStrip textUpper)) then false
  else if FormattingConstants.TITLE_PAGE_MARKERS.any
      (fun m => strContains textUpper m) then true
  else if reFioInitials.search text || reFioFull.search text then true
  else if text.data.length < 200 then
    if imagePlaceholders.any (fun ph => strContains textUpper ph) then false
    else
      let alphaChars := text.data.filter pyAlpha
      if alphaChars.isEmpty then false
      else
        let ups := (alphaChars.filter pyIsUpper).length
        -- `upper_ratio > 0.8 and len(text.split()) <= 5`
        if 5 * ups > 4 * alphaChars.length
            && (pySplitWs text.data).length ≤ 5 then
          -- `not re.match(r'^\d+\.', text.strip())`
          !(reNumDot.matchAt (pyStrip text))
        else false
  else false

/-- `ContentDetector.is_contents_header`. -/
def isContentsHeader (text : String) : Bool :=
  FormattingConstants.CONTENT_HEADERS.contains (pyStrip (pyUpper text))

/-- `.+\.{3,}.+\d+$` — "Введение...........3" (re.search). -/
def reDots3 : RE :=
  .seq (plus anyCh) (.seq (chr '.') (.seq (chr '.') (.seq (plus (chr '.'))
    (.seq (plus anyCh) (.seq (plus (.cls pyDigit)) .eof)))))

/-- `.+\.{2,}\s*\d+$` — "1. Обзор литературы..5" (re.search). -/
def reDots2 : RE :=
  .seq (plus anyCh) (.seq (chr '.') (.seq (plus (chr '.'))
    (.seq (.star (.cls pySpace)) (.seq (plus (.cls pyDigit)) .eof))))

/-- `^[А-ЯЁ\d\.\s]+\.{3,}\d+$` — "ГЛАВА 1...10". -/
def reCapsDots3 : RE :=
  .seq (plus (.cls (fun c => cyrUpper c || pyDigit c || c == '.' || pySpace c)))
    (.seq (chr '.') (.seq (chr '.') (.seq (plus (chr '.'))
      (.seq (plus (.cls pyDigit)) .eof))))

/-- `^\d+[\.\s][А-ЯЁа-яё\s]+\.{3,}\d+$` — "1 Введение.....4". -/
def reNumSepDots3 : RE :=
  .seq (plus (.cls pyDigit)) (.seq (.cls (fun c => c == '.' || pySpace c))
    (.seq (plus (.cls clsCyrWs)) (.seq (chr '.') (.seq (chr '.')
      (.seq (plus (chr '.')) (.seq (plus (.cls pyDigit)) .eof))))))

/-- `^\d+\.\d+[\.\s][А-ЯЁа-яё\s]+\.{3,}\d+$` — "1.1 Подраздел.....8". -/
def reSubNumDots3 : RE :=
  .seq (plus (.cls pyDigit)) (.seq (chr '.') (.seq (plus (.cls pyDigit))
    (.seq (.cls (fun c => c == '.' || pySpace c)) (.seq (plus (.cls clsCyrWs))
      (.seq (chr '.') (.seq (chr '.') (.seq (plus (chr '.'))
        (.seq (plus (.cls pyDigit)) .eof))))))))

/-- `^[А-ЯЁа-яё\s]+\s+\d+$` — "Введение    8". -/
def reCyrSpNum : RE :=
  .seq (plus (.cls clsCyrWs)) (.seq (plus (.cls pySpace))
    (.seq (plus (.cls pyDigit)) .eof))

/-- `^\d+\.\s*[А-ЯЁа-яё\s]+\s+\d+$` — "1. Анализ предметной области   11". -/
def reNumDotCyrNum : RE :=
  .seq (plus (.cls pyDigit)) (.seq (chr '.') (.seq (.star (.cls pySpace))
    (.seq (plus (.cls clsCyrWs)) (.seq (plus (.cls pySpace))
      (.seq (plus (.cls pyDigit)) .eof)))))

/-- `^\d+\s+[А-ЯЁа-яё\s]+\s+\d+$` — "1 Введение   4". -/
def reNumSpCyrNum : RE :=
  .seq (plus (.cls pyDigit)) (.seq (plus (.cls pySpace))
    (.seq (plus (.cls clsCyrWs)) (.seq (plus (.cls pySpace))
      (.seq (plus (.cls pyDigit)) .eof))))

/-- `^\d+\.\d+\s+[А-ЯЁа-яё\s]+\s+\d+$` — "1.1 Недостатки   11". -/
def reSubNumSpCyrNum : RE :=
  .seq (plus (.cls pyDigit)) (.seq (chr '.') (.seq (plus (.cls pyDigit))
    (.seq (plus (.cls pySpace)) (.seq (plus (.cls clsCyrWs))
      (.seq (plus (.cls pySpace)) (.seq (plus (.cls pyDigit)) .eof))))))

/-- `^[А-ЯЁа-яё\s,]+\d+$` — "Определения, обозначения и сокращения5". -/
def reCyrCommaNum : RE :=
  .seq (plus (.cls clsCyrWsComma)) (.seq (plus (.cls pyDigit)) .eof)

/-- `\d+$` — the final-number probe of the fallback heuristic (re.search). -/
def reEndsNum : RE :=
  .seq (plus (.cls pyDigit)) .eof

/-- The ordered `content_patterns` list of `is_contents_line`; the `^`-anchored
patterns compile to `matchAt`, the unanchored two to `search`. -/
def contentsLinePatterns (textClean : String) : Bool :=
  reDots3.search textClean || reDots2.search textClean ||
  reCapsDots3.matchAt textClean || reNumSepDots3.matchAt textClean ||
  reSubNumDots3.matchAt textClean || reCyrSpNum.matchAt textClean ||
  reNumDotCyrNum.matchAt textClean || reNumSpCyrNum.matchAt textClean ||
  reSubNumSpCyrNum.matchAt textClean || reCyrCommaNum.matchAt textClean

/-- `ContentDetector.is_contents_line`. -/
def isContentsLine (text : String) : Bool :=
  let textClean := pyStrip text
  if textClean.isEmpty then false
  else if contentsLinePatterns textClean then true
  else if reEndsNum.search textClean then
    let words := pySplitWs textClean.data
    2 ≤ words.length && words.length ≤ 8 && pyIntAccepts (words.getLastD [])
  else false

/-- `ContentDetector.is_service_content`. -/
def isServiceContent (text : String) : Bool :=
  let textUpper := pyUpper text
  if referencesVetoKeywords.any (fun kw => strContains textUpper kw) then false
  else FormattingConstants.SERVICE_MARKERS.any (fun m => strContains textUpper m)

/-- `^ГЛАВА\s+\d+$`. -/
def reGlavaNumEnd : RE :=
  .seq (lit "ГЛАВА") (.seq (plus (.cls pySpace)) (.seq (plus (.cls pyDigit)) .eof))

/-- `^\d+\.\s*[А-ЯЁ][А-ЯЁа-яё\s]*$` — "1. ВВЕДЕНИЕ". -/
def reChapterDot : RE :=
  .seq (plus (.cls pyDigit)) (.seq (chr '.') (.seq (.star (.cls pySpace))
    (.seq (.cls cyrUpper) (.seq (.star (.cls clsCyrWs)) .eof))))

/-- `^\d+\s+[А-ЯЁ][А-ЯЁа-яё\s]*$` — "1 ВВЕДЕНИЕ". -/
def reChapterSp : RE :=
  .seq (plus (.cls pyDigit)) (.seq (plus (.cls pySpace))
    (.seq (.cls cyrUpper) (.seq (.star (.cls clsCyrWs)) .eof)))

/-- `\s+\d+$` — the trailing-page-number probe (re.search). -/
def reTrailingNum : RE :=
  .seq (plus (.cls pySpace)) (.seq (plus (.cls pyDigit)) .eof)

/-- `ContentDetector.is_main_content_start`. -/
def isMainContentStart (text : String) : Bool :=
  let textUpper := pyStrip (pyUpper text)
  if isContentsLine text then false
  else if FormattingConstants.MAIN_CONTENT_MARKERS.any (fun m => textUpper == m) then
    true
  else if (reGlavaNumEnd.matchAt textUpper || reChapterDot.matchAt textUpper ||
      reChapterSp.matchAt textUpper)
      && !(reTrailingNum.search (pyStrip text)) then true
  else false

end ContentDetector

/-! ### DocumentState (`document_state.py`) -/

/-- The scanning state machine; one instance per run. -/
structure DocumentState where
  inTitleSection : Bool := true
  inContentsSection : Bool := false
  inReferencesSection : Bool := false
  foundMainContent : Bool := false
  pagesSkipped : Nat := 0
deriving DecidableEq, Repr

/-- `DocumentState.__init__`. -/
def initialDocumentState : DocumentState := {}

/-- `DocumentState.start_contents_section`. -/
def DocumentState.startContentsSection (st : DocumentState) : DocumentState :=
  { st with inContentsSection := true }

/-- `DocumentState.start_main_content` (note: it also clears
`in_references_section`). -/
def DocumentState.startMainContent (st : DocumentState) : DocumentState :=
  { st with inTitleSection := false, inContentsSection := false,
            inReferencesSection := false, foundMainContent := true }

/-- `DocumentState.start_references_section`. -/
def DocumentState.startReferencesSection (st : DocumentState) : DocumentState :=
  { st with inReferencesSection := true }

/-! ### Document object model (the python-docx surface the code touches)

Lengths (`Cm`) are integers in hundredths of a centimetre, spacings (`Pt`)
integers in points. -/

inductive Alignment where
  | left | center | right | justify
deriving DecidableEq, Repr

inductive LineSpacingRule where
  | single | onePointFive | double
deriving DecidableEq, Repr

/-- An inline run: text plus the font attributes the formatter touches. -/
structure Run where
  text : String := ""
  fontName : Option String := none
  fontSize : Option Nat := none
  bold : Option Bool := none
deriving DecidableEq, Repr

/-- A paragraph: runs, style reference and the paragraph-format fields the
formatter touches.  `hasDrawing` abstracts the embedded drawing/pict/object
XML elements probed by `_contains_image`; `hasEmptyRunElements` abstracts its
last probe (an empty-text run whose XML element has children). -/
structure Paragraph where
  runs : List Run := []
  styleName : Option String := none
  alignment : Option Alignment := none
  firstLineIndent : Option Int := none
  leftIndent : Option Int := none
  rightIndent : Option Int := none
  lineSpacingRule : Option LineSpacingRule := none
  spaceBefore : Option Int := none
  spaceAfter : Option Int := none
  pageBreakBefore : Bool := false
  hasDrawing : Bool := false
  hasEmptyRunElements : Bool := false
deriving DecidableEq, Repr

/-- `paragraph.text` — concatenation of the run texts. -/
def Paragraph.text (p : Paragraph) : String :=
  String.join (p.runs.map Run.text)

/-- `FormattingConstants.ALIGN_MAP` (fallible dict lookup). -/
def alignMap (s : String) : Option Alignment :=
  if s == "left" then some .left
  else if s == "center" then some .center
  else if s == "right" then some .right
  else if s == "justify" then some .justify
  else none

/-- `FormattingConstants.LINE_SPACING_MAP` — keys 1.0/1.5/2.0 in tenths. -/
def lineSpacingMap (v : Int) : Option LineSpacingRule :=
  if v == 10 then some .single
  else if v == 15 then some .onePointFive
  else if v == 20 then some .double
  else none

/-! ### Requirements model

A typed record carrying exactly the configuration the classifier and the
formatter read.  Detection-pattern lists become Bool-valued functions
("some pattern of the list matches the given string"), so the theorems
quantify over every requirements model; `defaultRequirements` instantiates
them with the concrete regexes of `requirements_stub.py`. -/

/-- `h1_formatting` .. `h4_formatting` (`paragraph_indent_cm` is read with
`.get(..., 0)` and absent for H1). -/
structure HeadingConfig where
  fontName : String
  fontSize : Nat
  fontWeight : String
  textTransform : String
  alignment : String
  pageBreakBefore : Bool
  spaceBeforePt : Int
  spaceAfterPt : Int
  paragraphIndentCm : Option Int := none
deriving DecidableEq, Repr

/-- `base_formatting`. -/
structure BaseConfig where
  fontName : String
  fontSize : Nat
  lineSpacing : Int
  textAlignment : String
  paragraphIndentCm : Int
  marginsTop : Int
  marginsBottom : Int
  marginsLeft : Int
  marginsRight : Int
deriving DecidableEq, Repr

/-- `lists.bullet_lists` (the fields the formatter reads). -/
structure ListConfig where
  fontName : String
  fontSize : Nat
  fontLineSpacing : Int
  alignment : String
  indentCm : Int
deriving DecidableEq, Repr

/-- `special_sections.references.content`. -/
structure RefsContentConfig where
  fontName : String
  fontSize : Nat
  alignment : String
  lineSpacing : Int
  paragraphIndentCm : Int
  spaceBeforePt : Option Int := none
  spaceAfterPt : Option Int := none
deriving DecidableEq, Repr

/-- A plain special section (`abstract`/`annotation`/... format block). -/
structure SectionConfig where
  fontName : String
  fontSize : Nat
  alignment : String
  lineSpacing : Int
  paragraphIndentCm : Int
deriving DecidableEq, Repr

/-- A `spacing` sub-block. -/
structure SpacingConfig where
  beforePt : Int
  afterPt : Int
deriving DecidableEq, Repr

/-- `tables.caption` / `figures.caption`. -/
structure CaptionConfig where
  fontName : String
  fontSize : Nat
  fontWeight : String
  alignment : String
  lineSpacing : Option Int := none
  spacing : SpacingConfig
deriving DecidableEq, Repr

/-- `tables.content`. -/
structure TableContentConfig where
  fontName : String
  fontSize : Nat
  alignment : String
  lineSpacing : Option Int := none
deriving DecidableEq, Repr

/-- `tables.header`. -/
structure TableHeaderConfig where
  fontName : String
  fontSize : Nat
  fontWeight : String
  alignment : String
deriving DecidableEq, Repr

/-- `tables.table`. -/
structure TableLayoutConfig where
  alignment : String
  widthAuto : Bool := true
deriving DecidableEq, Repr

/-- `figures.image`. -/
structure FigureImageConfig where
  alignment : String
  spacing : SpacingConfig
deriving DecidableEq, Repr

/-- `formulas.formula` / `formulas.numbering`. -/
structure FormulaConfig where
  fontName : String
  fontSize : Nat
  alignment : String
  spacing : SpacingConfig
deriving DecidableEq, Repr

/-- `formulas.variables_explanation` (`line_spacing` read with
`.get(..., 1.5)`). -/
structure FormulaExplainConfig where
  fontName : String
  fontSize : Nat
  alignment : String
  indentCm : Int
  lineSpacing : Option Int := none
  spacing : SpacingConfig
deriving DecidableEq, Repr

/-- The requirements model: detection-pattern matchers plus the typed
formatting blocks.  `specialSections` keeps the Python dict order
(`abstract, annotation, introduction, conclusion, references`);
`referencesKeywords` mirrors the separate
`special_sections["references"]["keywords"]` access. -/
structure Requirements where
  h1Match : String → Bool
  h2Match : String → Bool
  h3Match : String → Bool
  h4Match : String → Bool
  listMatch : String → Bool
  tableSearch : String → Bool
  figureSearch : String → Bool
  specialSections : List (String × List String)
  referencesKeywords : List String
  h1Cfg : HeadingConfig
  h2Cfg : HeadingConfig
  h3Cfg : HeadingConfig
  h4Cfg : HeadingConfig
  baseCfg : BaseConfig
  listCfg : ListConfig
  refsTitleCfg : HeadingConfig
  refsContentCfg : RefsContentConfig
  sectionCfgs : List (String × SectionConfig)
  tablesCaption : CaptionConfig
  tablesContent : TableContentConfig
  tablesHeader : TableHeaderConfig
  tablesLayout : TableLayoutConfig
  figuresCaption : CaptionConfig
  figuresImage : FigureImageConfig
  formulaCfg : FormulaConfig
  formulaNumberingCfg : FormulaConfig
  formulaExplainCfg : FormulaExplainConfig

/-! ### Default requirements (`requirements_stub.get_default_vkr_requirements`) -/

namespace DefaultReq

open RE ContentDetector

/-- `[А-Яа-яёЁ]` — both Cyrillic cases. -/
def clsCyrLetter (c : Char) : Bool := cyrUpper c || cyrLower c

/-- `^\d+\.\d+\.?\s+[А-Яа-яёЁ]` — "1.1. Подраздел". -/
def reH2a : RE :=
  .seq (plus (.cls pyDigit)) (.seq (chr '.') (.seq (plus (.cls pyDigit))
    (.seq (opt (chr '.')) (.seq (plus (.cls pySpace)) (.cls clsCyrLetter)))))

/-- `^\d+\.\d+\s+[А-ЯЁ\s]+$` — "1.1 ПОДРАЗДЕЛ". -/
def reH2b : RE :=
  .seq (plus (.cls pyDigit)) (.seq (chr '.') (.seq (plus (.cls pyDigit))
    (.seq (plus (.cls pySpace)) (.seq (plus (.cls clsCyrUpWs)) .eof))))

/-- `^\d+\.\d+\.\d+\.?\s+[А-Яа-яёЁ]` — "1.1.1. Подподраздел". -/
def reH3a : RE :=
  .seq (plus (.cls pyDigit)) (.seq (chr '.') (.seq (plus (.cls pyDigit))
    (.seq (chr '.') (.seq (plus (.cls pyDigit)) (.seq (opt (chr '.'))
      (.seq (plus (.cls pySpace)) (.cls clsCyrLetter)))))))

/-- `^\d+\.\d+\.\d+\s+[А-ЯЁ\s]+$` — "1.1.1 ПОДПОДРАЗДЕЛ". -/
def reH3b : RE :=
  .seq (plus (.cls pyDigit)) (.seq (chr '.') (.seq (plus (.cls pyDigit))
    (.seq (chr '.') (.seq (plus (.cls pyDigit))
      (.seq (plus (.cls pySpace)) (.seq (plus (.cls clsCyrUpWs)) .eof))))))

/-- `^\d+\.\d+\.\d+\.\d+\.?\s+[А-Яа-яёЁ]` — "1.1.1.1. Пункт". -/
def reH4a : RE :=
  .seq (plus (.cls pyDigit)) (.seq (chr '.') (.seq (plus (.cls pyDigit))
    (.seq (chr '.') (.seq (plus (.cls pyDigit)) (.seq (chr '.')
      (.seq (plus (.cls pyDigit)) (.seq (opt (chr '.'))
        (.seq (plus (.cls pySpace)) (.cls clsCyrLetter)))))))))

/-- `^\d+\.\d+\.\d+\.\d+\s+[А-ЯЁ\s]+$` — "1.1.1.1 ПУНКТ". -/
def reH4b : RE :=
  .seq (plus (.cls pyDigit)) (.seq (chr '.') (.seq (plus (.cls pyDigit))
    (.seq (chr '.') (.seq (plus (.cls pyDigit)) (.seq (chr '.')
      (.seq (plus (.cls pyDigit))
        (.seq (plus (.cls pySpace)) (.seq (plus (.cls clsCyrUpWs)) .eof))))))))

/-- `^\s*[-–—]\s+` — a dash list marker. -/
def reListDash : RE :=
  .seq (.star (.cls pySpace))
    (.seq (.cls (fun c => c == '-' || c.toNat == 0x2013 || c.toNat == 0x2014))
      (plus (.cls pySpace)))

/-- `^\s*\d+\)\s+` — "1) item". -/
def reListNum : RE :=
  .seq (.star (.cls pySpace))
    (.seq (plus (.cls pyDigit)) (.seq (chr ')') (plus (.cls pySpace))))

/-- `^\s*[а-я]\)\s+` — "а) item" (`[а-я]`: U+0430..U+044F, no ё). -/
def reListCyr : RE :=
  .seq (.star (.cls pySpace))
    (.seq (.cls (fun c => 0x430 ≤ c.toNat && c.toNat ≤ 0x44F))
      (.seq (chr ')') (plus (.cls pySpace))))

/-- `Таблица\s+\d+` | `Табл\.\s+\d+` | `Table\s+\d+` (search, IGNORECASE). -/
def tableCaptionSearch (s : String) : Bool :=
  RE.search (.seq (litCI "Таблица") (.seq (plus (.cls pySpace)) (plus (.cls pyDigit)))) s ||
  RE.search (.seq (litCI "Табл") (.seq (chr '.')
    (.seq (plus (.cls pySpace)) (plus (.cls pyDigit))))) s ||
  RE.search (.seq (litCI "Table") (.seq (plus (.cls pySpace)) (plus (.cls pyDigit)))) s

/-- `Рисунок\s+\d+` | `Рис\.\s+\d+` | `Figure\s+\d+` (search, IGNORECASE). -/
def figureCaptionSearch (s : String) : Bool :=
  RE.search (.seq (litCI "Рисунок") (.seq (plus (.cls pySpace)) (plus (.cls pyDigit)))) s ||
  RE.search (.seq (litCI "Рис") (.seq (chr '.')
    (.seq (plus (.cls pySpace)) (plus (.cls pyDigit))))) s ||
  RE.search (.seq (litCI "Figure") (.seq (plus (.cls pySpace)) (plus (.cls pyDigit)))) s

/-- The `h1_formatting.detection_patterns` of the stub (the same four regex
literals as the `h1_patterns` veto inside `is_title_page_content`). -/
def h1PatternsMatch (s : String) : Bool :=
  reNumDotCyr.matchAt s || reGlavaNum.matchAt s ||
  reSpecialH1.matchAt s || reRomanDotCyr.matchAt s

def h2PatternsMatch (s : String) : Bool :=
  reH2a.matchAt s || reH2b.matchAt s

def h3PatternsMatch (s : String) : Bool :=
  reH3a.matchAt s || reH3b.matchAt s

def h4PatternsMatch (s : String) : Bool :=
  reH4a.matchAt s || reH4b.matchAt s

def listPatternsMatch (s : String) : Bool :=
  reListDash.matchAt s || reListNum.matchAt s || reListCyr.matchAt s

def referencesKeywords : List String :=
  ["СПИСОК ИСПОЛЬЗОВАННЫХ ИСТОЧНИКОВ", "СПИСОК ЛИТЕРАТУРЫ",
   "БИБЛИОГРАФИЧЕСКИЙ СПИСОК", "REFERENCES", "BIBLIOGRAPHY"]

def specialSections : List (String × List String) :=
  [("abstract", ["РЕФЕРАТ", "ABSTRACT"]),
   ("annotation", ["ANNOTATION", "АННОТАЦИЯ"]),
   ("introduction", ["ВВЕДЕНИЕ", "INTRODUCTION"]),
   ("conclusion", ["ЗАКЛЮЧЕНИЕ", "CONCLUSION"]),
   ("references", referencesKeywords)]

def tnr : String := "Times New Roman"

def plainSectionCfg : SectionConfig :=
  { fontName := tnr, fontSize := 14, alignment := "justify",
    lineSpacing := 15, paragraphIndentCm := 125 }

end DefaultReq

/-- The default ГОСТ requirements of `requirements_stub.py`. -/
def defaultRequirements : Requirements where
  h1Match := DefaultReq.h1PatternsMatch
  h2Match := DefaultReq.h2PatternsMatch
  h3Match := DefaultReq.h3PatternsMatch
  h4Match := DefaultReq.h4PatternsMatch
  listMatch := DefaultReq.listPatternsMatch
  tableSearch := DefaultReq.tableCaptionSearch
  figureSearch := DefaultReq.figureCaptionSearch
  specialSections := DefaultReq.specialSections
  referencesKeywords := DefaultReq.referencesKeywords
  h1Cfg := { fontName := DefaultReq.tnr, fontSize := 16, fontWeight := "bold",
             textTransform := "uppercase", alignment := "center",
             pageBreakBefore := true, spaceBeforePt := 0, spaceAfterPt := 18 }
  h2Cfg := { fontName := DefaultReq.tnr, fontSize := 14, fontWeight := "bold",
             textTransform := "none", alignment := "left",
             pageBreakBefore := false, spaceBeforePt := 12, spaceAfterPt := 6,
             paragraphIndentCm := some 200 }
  h3Cfg := { fontName := DefaultReq.tnr, fontSize := 14, fontWeight := "normal",
             textTransform := "none", alignment := "left",
             pageBreakBefore := false, spaceBeforePt := 6, spaceAfterPt := 3,
             paragraphIndentCm := some 250 }
  h4Cfg := { fontName := DefaultReq.tnr, fontSize := 14, fontWeight := "normal",
             textTransform := "none", alignment := "left",
             pageBreakBefore := false, spaceBeforePt := 3, spaceAfterPt := 3,
             paragraphIndentCm := some 200 }
  baseCfg := { fontName := DefaultReq.tnr, fontSize := 14, lineSpacing := 15,
               textAlignment := "justify", paragraphIndentCm := 125,
               marginsTop := 200, marginsBottom := 200,
               marginsLeft := 300, marginsRight := 150 }
  listCfg := { fontName := DefaultReq.tnr, fontSize := 14, fontLineSpacing := 15,
               alignment := "justify", indentCm := 125 }
  refsTitleCfg := { fontName := DefaultReq.tnr, fontSize := 16, fontWeight := "bold",
                    textTransform := "uppercase", alignment := "center",
                    pageBreakBefore := true, spaceBeforePt := 0, spaceAfterPt := 18 }
  refsContentCfg := { fontName := DefaultReq.tnr, fontSize := 14,
                      alignment := "justify", lineSpacing := 15,
                      paragraphIndentCm := 150,
                      spaceBeforePt := some 0, spaceAfterPt := some 0 }
  sectionCfgs := [("abstract", DefaultReq.plainSectionCfg),
                  ("annotation", DefaultReq.plainSectionCfg),
                  ("introduction", DefaultReq.plainSectionCfg),
                  ("conclusion", DefaultReq.plainSectionCfg)]
  tablesCaption := { fontName := DefaultReq.tnr, fontSize := 14,
                     fontWeight := "normal", alignment := "left",
                     lineSpacing := some 10, spacing := ⟨12, 6⟩ }
  tablesContent := { fontName := DefaultReq.tnr, fontSize := 12,
                     alignment := "center", lineSpacing := some 10 }
  tablesHeader := { fontName := DefaultReq.tnr, fontSize := 12,
                    fontWeight := "bold", alignment := "center" }
  tablesLayout := { alignment := "center", widthAuto := true }
  figuresCaption := { fontName := DefaultReq.tnr, fontSize := 14,
                      fontWeight := "normal", alignment := "center",
                      lineSpacing := some 10, spacing := ⟨6, 12⟩ }
  figuresImage := { alignment := "center", spacing := ⟨12, 6⟩ }
  formulaCfg := { fontName := DefaultReq.tnr, fontSize := 14,
                  alignment := "center", spacing := ⟨12, 6⟩ }
  formulaNumberingCfg := { fontName := DefaultReq.tnr, fontSize := 14,
                           alignment := "right", spacing := ⟨0, 6⟩ }
  formulaExplainCfg := { fontName := DefaultReq.tnr, fontSize := 14,
                         alignment := "left", indentCm := 125,
                         lineSpacing := some 15, spacing := ⟨6, 12⟩ }

/-! ### Pattern-based classifier (`paragraph_classifier.py`)

The mutable `self.state` becomes an explicit `DocumentState` argument;
classification returns the role together with the successor state. -/

/-- `ParagraphClassifier._is_h1_paragraph` — stub patterns on the uppercased
text, plus the short-mostly-uppercase heuristic (`upper_ratio > 0.7` is the
integer comparison `10 * ups > 7 * total`). -/
def isH1Paragraph (req : Requirements) (text : String) : Bool :=
  if req.h1Match (pyStrip (pyUpper text)) then true
  else if text.data.length < 100 then
    let alphaChars := text.data.filter pyAlpha
    if alphaChars.isEmpty then false
    else 10 * (alphaChars.filter pyIsUpper).length > 7 * alphaChars.length
  else false

/-- `ParagraphClassifier._is_h2_paragraph`. -/
def isH2Paragraph (req : Requirements) (text : String) : Bool :=
  req.h2Match (pyStrip text)

/-- `StyleBasedClassifier._is_h3_by_pattern`. -/
def isH3Paragraph (req : Requirements) (text : String) : Bool :=
  req.h3Match (pyStrip text)

/-- `StyleBasedClassifier._is_h4_by_pattern`. -/
def isH4Paragraph (req : Requirements) (text : String) : Bool :=
  req.h4Match (pyStrip text)

/-- `ParagraphClassifier._is_list_paragraph` (patterns on the raw text). -/
def isListParagraph (req : Requirements) (text : String) : Bool :=
  req.listMatch text

/-- `ParagraphClassifier._classify_content_paragraph`. -/
def classifyContentParagraph (req : Requirements) (textClean : String) : String :=
  if isH1Paragraph req textClean then "h1"
  else if isH2Paragraph req textClean then "h2"
  else if isListParagraph req textClean then "list"
  else "regular"

/-- `ParagraphClassifier._classify_in_contents_section`. -/
def classifyInContentsSection (req : Requirements) (st : DocumentState)
    (textClean : String) : String × DocumentState :=
  if ContentDetector.isContentsLine textClean then ("skip", st)
  else if ContentDetector.isMainContentStart textClean then
    (classifyContentParagraph req textClean, st.startMainContent)
  else ("skip", st)

/-- `ParagraphClassifier.classify_paragraph`. -/
def classifyParagraph (req : Requirements) (st : DocumentState)
    (text : String) : String × DocumentState :=
  if text.isEmpty then ("skip", st)
  else
    let textClean := pyStrip text
    if ContentDetector.isContentsHeader textClean then
      ("skip", st.startContentsSection)
    else if st.inContentsSection then
      classifyInContentsSection req st textClean
    else if ContentDetector.isTitlePageContent textClean ||
        ContentDetector.isServiceContent textClean then
      ("skip", st)
    else if !st.foundMainContent &&
        ContentDetector.isMainContentStart textClean then
      (classifyContentParagraph req textClean, st.startMainContent)
    else if st.inTitleSection then ("skip", st)
    else (classifyContentParagraph req textClean, st)

/-! ### Style-based classifier (`style_based_classifier.py`) -/

namespace StyleCls

open RE

/-- `_get_paragraph_style_name` — the style's name, or "Normal" when the
style is absent (or the lookup raised). -/
def getStyleName (p : Paragraph) : String :=
  p.styleName.getD "Normal"

/-- Exact alias match or case-insensitive substring match, the shared shape
of `_is_h1_style` .. `_is_list_style`. -/
def styleMatches (aliases : List String) (styleName : String) : Bool :=
  aliases.contains styleName ||
  aliases.any (fun a => strContains (pyLower styleName) (pyLower a))

def h1Styles : List String :=
  ["Heading 1", "Заголовок 1", "Title", "Название", "Header 1", "H1"]

def h2Styles : List String :=
  ["Heading 2", "Заголовок 2", "Subtitle", "Подзаголовок", "Header 2", "H2",
   "Heading2", "Заголовок2", "Sub Heading", "Подраздел", "Section Heading"]

def h3Styles : List String :=
  ["Heading 3", "Заголовок 3", "Heading3", "Заголовок3", "Header 3", "H3",
   "Sub Sub Heading", "Подподраздел", "Subsection Heading"]

def h4Styles : List String :=
  ["Heading 4", "Заголовок 4", "Heading4", "Заголовок4", "Header 4", "H4",
   "Paragraph Heading", "Пункт", "Point Heading"]

def listStyles : List String :=
  ["List Paragraph", "Список", "Bullet", "Numbered",
   "Маркированный список", "Нумерованный список"]

/-- `_is_h1_style`. -/
def isH1Style (styleName : String) : Bool := styleMatches h1Styles styleName

/-- `_is_h2_style`. -/
def isH2Style (styleName : String) : Bool := styleMatches h2Styles styleName

/-- `_is_h3_style`. -/
def isH3Style (styleName : String) : Bool := styleMatches h3Styles styleName

/-- `_is_h4_style`. -/
def isH4Style (styleName : String) : Bool := styleMatches h4Styles styleName

/-- `_is_list_style`. -/
def isListStyle (styleName : String) : Bool := styleMatches listStyles styleName

/-- `_contains_image`: placeholder tokens in the text, or embedded drawing
elements, or an empty paragraph whose runs carry non-text XML children. -/
def containsImage (p : Paragraph) : Bool :=
  let text := pyStrip p.text
  if ContentDetector.imagePlaceholders.any
      (fun ph => strContains (pyUpper text) ph) then true
  else if p.hasDrawing then true
  else text.isEmpty && !p.runs.isEmpty && p.hasEmptyRunElements

/-- `\(\d+\.\d+\)` (re.search). -/
def reParenSubNum : RE :=
  .seq (chr '(') (.seq (plus (.cls pyDigit)) (.seq (chr '.')
    (.seq (plus (.cls pyDigit)) (chr ')'))))

/-- `\(\d+\)` (re.search). -/
def reParenNum : RE :=
  .seq (chr '(') (.seq (plus (.cls pyDigit)) (chr ')'))

/-- `^где\s+[а-яёА-ЯЁ]` (IGNORECASE). -/
def reGde : RE :=
  .seq (litCI "где") (.seq (plus (.cls pySpace)) (.cls DefaultReq.clsCyrLetter))

/-- `^[а-яёА-ЯЁ]\s*[-–—]\s*` (IGNORECASE). -/
def reVarDash : RE :=
  .seq (.cls DefaultReq.clsCyrLetter) (.seq (.star (.cls pySpace))
    (.seq (.cls (fun c => c == '-' || c.toNat == 0x2013 || c.toNat == 0x2014))
      (.star (.cls pySpace))))

/-- `^в\s+которой\s+` (IGNORECASE). -/
def reVKotoroj : RE :=
  .seq (litCI "в") (.seq (plus (.cls pySpace))
    (.seq (litCI "которой") (plus (.cls pySpace))))

/-- `^здесь\s+[а-яёА-ЯЁ]` (IGNORECASE). -/
def reZdes : RE :=
  .seq (litCI "здесь") (.seq (plus (.cls pySpace)) (.cls DefaultReq.clsCyrLetter))

/-- `^Формула\s+\d+` | `^Formula\s+\d+` (IGNORECASE). -/
def reFormulaTitle : RE :=
  .alt (.seq (litCI "Формула") (.seq (plus (.cls pySpace)) (plus (.cls pyDigit))))
    (.seq (litCI "Formula") (.seq (plus (.cls pySpace)) (plus (.cls pyDigit))))

/-- Greek lowercase letters as listed in the source class (α..ω without ς). -/
def greekLower (c : Char) : Bool :=
  0x3B1 ≤ c.toNat && c.toNat ≤ 0x3C9 && c.toNat != 0x3C2

/-- Greek uppercase letters as listed in the source class. -/
def greekUpper (c : Char) : Bool :=
  0x391 ≤ c.toNat && c.toNat ≤ 0x3A9 && c.toNat != 0x3A2

/-- `[₀₁₂₃₄₅₆₇₈₉]`. -/
def subscriptDigit (c : Char) : Bool :=
  0x2080 ≤ c.toNat && c.toNat ≤ 0x2089

/-- `[⁰¹²³⁴⁵⁶⁷⁸⁹]`. -/
def superscriptDigit (c : Char) : Bool :=
  c.toNat == 0x2070 || c.toNat == 0xB9 || c.toNat == 0xB2 || c.toNat == 0xB3 ||
  (0x2074 ≤ c.toNat && c.toNat ≤ 0x2079)

/-- Python `\w` (Unicode word character) over the alphabets processed here. -/
def pyWordChar (c : Char) : Bool :=
  pyAlpha c || pyDigit c || c == '_' || greekLower c || greekUpper c

/-- The math function names of `\b(sin|cos|tan|log|ln|exp|sqrt|lim|max|min)\b`. -/
def mathFuncNames : List (List Char) :=
  ["sin".data, "cos".data, "tan".data, "log".data, "ln".data,
   "exp".data, "sqrt".data, "lim".data, "max".data, "min".data]

/-- One word-bounded occurrence check at the head of `s` with left context
`prev`. -/
def mathFuncHere (prev : Option Char) (s : List Char) : Bool :=
  (match prev with
   | none => true
   | some c => !pyWordChar c) &&
  mathFuncNames.any (fun w =>
    List.isPrefixOf w s &&
    (match s.drop w.length with
     | [] => true
     | c :: _ => !pyWordChar c))

/-- `re.search` for the word-bounded math-function alternation. -/
def mathFuncSearchFrom (prev : Option Char) : List Char → Bool
  | [] => mathFuncHere prev []
  | c :: t => mathFuncHere prev (c :: t) || mathFuncSearchFrom (some c) t

/-- `_classify_content_elements`. -/
def classifyContentElements (req : Requirements) (textClean : String) : String :=
  if req.tableSearch textClean then "table_caption"
  else if req.figureSearch textClean then "figure_caption"
  else if reParenSubNum.search textClean || reParenNum.search textClean then
    "formula_numbering"
  else if reGde.matchAt textClean || reVarDash.matchAt textClean ||
      reVKotoroj.matchAt textClean || reZdes.matchAt textClean then
    "formula_explanation"
  else if reFormulaTitle.matchAt textClean then "formula"
  else if textClean.data.any (fun c =>
        c == '=' || c == '+' || c == '-' || c == '*' || c == '/' || c == '^') ||
      textClean.data.any (fun c =>
        c.toNat == 0x2211 || c.toNat == 0x220F || c.toNat == 0x222B ||
        c.toNat == 0x2202 || c.toNat == 0x2206 || c.toNat == 0x2207) ||
      textClean.data.any greekLower || textClean.data.any greekUpper ||
      mathFuncSearchFrom none textClean.data ||
      textClean.data.any subscriptDigit ||
      textClean.data.any superscriptDigit then "formula"
  else "regular"

/-- `^\s*\d+\.\s+` — a numbered bibliography entry with trailing text. -/
def reBibNumText : RE :=
  .seq (.star (.cls pySpace)) (.seq (plus (.cls pyDigit))
    (.seq (chr '.') (plus (.cls pySpace))))

/-- `^\s*\d+\.\s*$` — a bare entry number. -/
def reBibNumOnly : RE :=
  .seq (.star (.cls pySpace)) (.seq (plus (.cls pyDigit))
    (.seq (chr '.') (.seq (.star (.cls pySpace)) .eof)))

/-- `_is_bibliography_entry_start`. -/
def isBibliographyEntryStart (text : String) : Bool :=
  reBibNumText.matchAt text || reBibNumOnly.matchAt text

/-- `^[А-ЯЁ][а-яё]+\s+[А-ЯЁ]\.` — "Иванов И.". -/
def reBibCyrName : RE :=
  .seq (.cls cyrUpper) (.seq (plus (.cls cyrLower))
    (.seq (plus (.cls pySpace)) (.seq (.cls cyrUpper) (chr '.'))))

/-- `^[A-Z][a-z]+\s+[A-Z]\.` — "Smith J.". -/
def reBibLatName : RE :=
  .seq (.cls asciiUpper) (.seq (plus (.cls asciiLower))
    (.seq (plus (.cls pySpace)) (.seq (.cls asciiUpper) (chr '.'))))

/-- `^[А-ЯЁ][а-яё]+\s+[А-ЯЁ]\.\s*[А-ЯЁ]\.` — "Иванов И.И.". -/
def reBibCyrInitials : RE :=
  .seq (.cls cyrUpper) (.seq (plus (.cls cyrLower)) (.seq (plus (.cls pySpace))
    (.seq (.cls cyrUpper) (.seq (chr '.') (.seq (.star (.cls pySpace))
      (.seq (.cls cyrUpper) (chr '.')))))))

/-- `^[A-Z][a-z]+\s+[A-Z]\.\s*[A-Z]\.` — "Smith J.A.". -/
def reBibLatInitials : RE :=
  .seq (.cls asciiUpper) (.seq (plus (.cls asciiLower)) (.seq (plus (.cls pySpace))
    (.seq (.cls asciiUpper) (.seq (chr '.') (.seq (.star (.cls pySpace))
      (.seq (.cls asciiUpper) (chr '.')))))))

/-- `^[А-ЯЁ][а-яё\s]+\s*[:/]` — "Название книги:". -/
def reBibCyrTitle : RE :=
  .seq (.cls cyrUpper) (.seq (plus (.cls (fun c => cyrLower c || pySpace c)))
    (.seq (.star (.cls pySpace)) (.cls (fun c => c == ':' || c == '/'))))

/-- `^[A-Z][a-zA-Z\s]+\s*[:/]` — "Book Title:". -/
def reBibLatTitle : RE :=
  .seq (.cls asciiUpper)
    (.seq (plus (.cls (fun c => asciiUpper c || asciiLower c || pySpace c)))
      (.seq (.star (.cls pySpace)) (.cls (fun c => c == ':' || c == '/'))))

/-- `^Документация\s+` | `^Официальный\s+сайт` | `^Сайт\s+`. -/
def bibSourceMatch (text : String) : Bool :=
  RE.matchAt (.seq (lit "Документация") (plus (.cls pySpace))) text ||
  RE.matchAt (.seq (lit "Официальный") (.seq (plus (.cls pySpace)) (lit "сайт"))) text ||
  RE.matchAt (.seq (lit "Сайт") (plus (.cls pySpace))) text

/-- `_looks_like_bibliography_start`. -/
def looksLikeBibliographyStart (text : String) : Bool :=
  if reBibCyrName.matchAt text || reBibLatName.matchAt text ||
      reBibCyrInitials.matchAt text || reBibLatInitials.matchAt text ||
      reBibCyrTitle.matchAt text || reBibLatTitle.matchAt text ||
      bibSourceMatch text then true
  else
    -- `re.match(r'^[А-ЯЁA-Z]', text) and '.' in text[:50]`
    (match text.data with
     | [] => false
     | c :: _ => cyrUpper c || asciiUpper c) &&
    (text.data.take 50).contains '.'

/-- `_classify_special_sections`: references header detection (which enters
the references sub-state), the entry/continuation split inside it, then the
generic special-section keyword scan. -/
def classifySpecialSections (req : Requirements) (st : DocumentState)
    (textClean : String) : String × DocumentState :=
  let textUpper := pyUpper textClean
  if req.referencesKeywords.any
      (fun kw => strContains textUpper (pyUpper kw)) then
    ("references_header", st.startReferencesSection)
  else if st.inReferencesSection && !(pyStrip textClean).isEmpty then
    if isBibliographyEntryStart textClean then ("bibliography_entry", st)
    else if looksLikeBibliographyStart textClean then ("bibliography_entry", st)
    else ("bibliography_continuation", st)
  else
    match req.specialSections.findSome? (fun sec =>
        if sec.2.any (fun kw => strContains textUpper (pyUpper kw)) then
          some sec.1
        else none) with
    | some name => ("special_" ++ name, st)
    | none => ("regular", st)

/-- `_is_special_h1_section` — any special-section keyword occurs in the text. -/
def isSpecialH1Section (req : Requirements) (textClean : String) : Bool :=
  req.specialSections.any (fun sec =>
    sec.2.any (fun kw => strContains (pyUpper textClean) (pyUpper kw)))

/-- `^\d+\.\s+[А-ЯЁ]` | `^ГЛАВА\s+\d+` | `^\d+\s+[А-ЯЁ]` on the uppercased
text — `_is_numbered_chapter`. -/
def isNumberedChapter (text : String) : Bool :=
  let textUpper := pyStrip (pyUpper text)
  RE.matchAt (.seq (plus (.cls pyDigit)) (.seq (chr '.')
    (.seq (plus (.cls pySpace)) (.cls cyrUpper)))) textUpper ||
  ContentDetector.reGlavaNum.matchAt textUpper ||
  RE.matchAt (.seq (plus (.cls pyDigit))
    (.seq (plus (.cls pySpace)) (.cls cyrUpper))) textUpper

/-- `_classify_by_text_patterns` — the text-pattern fallback. -/
def classifyByTextPatterns (req : Requirements) (textClean : String) : String :=
  if isH1Paragraph req textClean then "h1"
  else if isH2Paragraph req textClean then "h2"
  else if isH3Paragraph req textClean then "h3"
  else if isH4Paragraph req textClean then "h4"
  else if isListParagraph req textClean then "list"
  else "regular"

/-- `_classify_content_paragraph_by_style`. -/
def classifyContentParagraphByStyle (req : Requirements) (strict : Bool)
    (st : DocumentState) (p : Paragraph) (textClean : String) :
    String × DocumentState :=
  let styleName := getStyleName p
  if containsImage p then ("figure_image", st)
  else
    let contentType := classifyContentElements req textClean
    if contentType != "regular" then (contentType, st)
    else if isH1Style styleName then
      if isNumberedChapter textClean then ("h1", st)
      else if isSpecialH1Section req textClean then
        classifySpecialSections req st textClean
      else ("h1", st)
    else if isH2Style styleName then ("h2", st)
    else if isH3Style styleName then ("h3", st)
    else if isH4Style styleName then ("h4", st)
    else if isListStyle styleName then ("list", st)
    else if styleName == "Normal" then
      if strict then ("regular", st)
      else (classifyByTextPatterns req textClean, st)
    else
      let special := classifySpecialSections req st textClean
      if special.1 != "regular" then special
      else ("regular", st)

/-- `StyleBasedClassifier._classify_in_contents_section` (falls back to the
text patterns after the MAIN transition, since no paragraph object is in
scope there). -/
def classifyInContentsSectionByStyle (req : Requirements) (st : DocumentState)
    (textClean : String) : String × DocumentState :=
  if ContentDetector.isContentsLine textClean then ("skip", st)
  else if ContentDetector.isMainContentStart textClean then
    (classifyByTextPatterns req textClean, st.startMainContent)
  else ("skip", st)

/-- `StyleBasedClassifier.classify_paragraph_by_style`. -/
def classifyParagraphByStyle (req : Requirements) (strict : Bool)
    (st : DocumentState) (p : Paragraph) (text : String) :
    String × DocumentState :=
  if text.isEmpty then ("skip", st)
  else
    let textClean := pyStrip text
    if ContentDetector.isContentsHeader textClean then
      ("skip", st.startContentsSection)
    else if st.inContentsSection then
      classifyInContentsSectionByStyle req st textClean
    else if ContentDetector.isTitlePageContent textClean ||
        ContentDetector.isServiceContent textClean then
      ("skip", st)
    else if !st.foundMainContent &&
        ContentDetector.isMainContentStart textClean then
      classifyContentParagraphByStyle req strict st.startMainContent p textClean
    else if st.inTitleSection then ("skip", st)
    else classifyContentParagraphByStyle req strict st p textClean

end StyleCls

/-! ### StatisticsTracker (`statistics_tracker.py`)

The stats dict becomes an association list in insertion order. -/

/-- `StatisticsTracker.__init__` — the fixed counters, all zero. -/
def initialStats : List (String × Nat) :=
  [("total_paragraphs", 0), ("skipped_paragraphs", 0), ("h1_formatted", 0),
   ("h2_formatted", 0), ("h3_formatted", 0), ("h4_formatted", 0),
   ("lists_formatted", 0), ("regular_formatted", 0),
   ("references_headers_formatted", 0), ("bibliography_entries_formatted", 0),
   ("bibliography_continuations_formatted", 0), ("references_text_formatted", 0),
   ("special_abstract_formatted", 0), ("special_annotation_formatted", 0),
   ("special_introduction_formatted", 0), ("special_conclusion_formatted", 0),
   ("table_captions_formatted", 0), ("table_content_formatted", 0),
   ("tables_formatted", 0), ("figure_images_formatted", 0),
   ("figure_captions_formatted", 0), ("formulas_formatted", 0), ("errors", 0)]

/-- The per-entry update of `StatisticsTracker.increment`. -/
def bumpIfNamed (name : String) (kv : String × Nat) : String × Nat :=
  match kv.1 == name with
  | true => (kv.1, kv.2 + 1)
  | false => kv

/-- `StatisticsTracker.increment` — update a present key in place, or append
an absent (dynamic) key with value 1. -/
def incrementStat (stats : List (String × Nat)) (name : String) :
    List (String × Nat) :=
  if (List.lookup name stats).isSome then
    stats.map (bumpIfNamed name)
  else stats ++ [(name, 1)]

/-- The value stored under a counter (`self.stats.get(name, 0)`). -/
def statCount (stats : List (String × Nat)) (name : String) : Nat :=
  (List.lookup name stats).getD 0

/-- The report assembled by `StatisticsTracker.get_statistics`. -/
structure StatisticsReport where
  counters : List (String × Nat)
  titlePagesDetected : Nat
  mainContentFound : Bool
  contentsSectionDetected : Bool
  referencesSectionDetected : Bool
deriving DecidableEq, Repr

/-- `StatisticsTracker.get_statistics`. -/
def getStatistics (stats : List (String × Nat)) (st : DocumentState) :
    StatisticsReport where
  counters := stats
  titlePagesDetected := if st.foundMainContent then 1 else 0
  mainContentFound := st.foundMainContent
  contentsSectionDetected := !st.inContentsSection && st.foundMainContent
  referencesSectionDetected := st.inReferencesSection

/-! ### ParagraphFormatter (`paragraph_formatter.py`)

Formatter operations return `Option Paragraph`; `none` models the
`KeyError` raised by an `ALIGN_MAP[...]` lookup on an alignment string
outside the map (re-raised by every formatter's `except` clause). -/

/-- The keys `_apply_font_formatting` probes in its config dict. -/
structure FontSpec where
  fontName : Option String := none
  fontSize : Option Nat := none
  fontWeight : Option String := none

/-- The per-run body of `_apply_font_formatting`. -/
def applyRunFont (fs : FontSpec) (r : Run) : Run :=
  let r := match fs.fontName with
    | some n => { r with fontName := some n }
    | none => r
  let r := match fs.fontSize with
    | some v => { r with fontSize := some v }
    | none => r
  if fs.fontWeight == some "bold" then { r with bold := some true } else r

/-- `_apply_font_formatting` — adds an empty run when there is none, then
updates the font of every run. -/
def applyFontFormatting (fs : FontSpec) (p : Paragraph) : Paragraph :=
  let runs := if p.runs.isEmpty then [{}] else p.runs
  { p with runs := runs.map (applyRunFont fs) }

/-- `_make_text_uppercase` — clear the paragraph and re-add one run with the
uppercased text and the config font (bold only when the config says so). -/
def makeTextUppercase (cfg : HeadingConfig) (p : Paragraph) : Paragraph :=
  { p with runs := [{ text := pyUpper p.text, fontName := some cfg.fontName,
                      fontSize := some cfg.fontSize,
                      bold := if cfg.fontWeight == "bold" then some true else none }] }

/-- `_add_page_break_before` — the `page_break_before` property path (the
run-splicing fallback is only reached when the property assignment raises,
which the embedded property cannot). -/
def addPageBreakBefore (p : Paragraph) : Paragraph :=
  { p with pageBreakBefore := true }

/-- `ParagraphFormatter.format_h1` — uppercase transform, font, a page break
exactly when the config enables it and `h1_count_before > 0`, then alignment,
spacing, zero indents and single line spacing. -/
def formatH1 (cfg : HeadingConfig) (p : Paragraph) (h1CountBefore : Nat) :
    Option Paragraph :=
  let p := if cfg.textTransform == "uppercase" then makeTextUppercase cfg p else p
  let p := applyFontFormatting
    ⟨some cfg.fontName, some cfg.fontSize, some cfg.fontWeight⟩ p
  let p := if cfg.pageBreakBefore && h1CountBefore > 0 then addPageBreakBefore p
           else p
  match alignMap cfg.alignment with
  | none => none
  | some al =>
    some { p with alignment := some al,
                  spaceBefore := some cfg.spaceBeforePt,
                  spaceAfter := some cfg.spaceAfterPt,
                  firstLineIndent := some 0, leftIndent := some 0,
                  rightIndent := some 0,
                  lineSpacingRule := lineSpacingMap 10 }

/-- `format_h2` / `format_h3` / `format_h4` (identical bodies over their
config blocks; `paragraph_indent_cm` is read with `.get(..., 0)`). -/
def formatHeadingLower (cfg : HeadingConfig) (p : Paragraph) : Option Paragraph :=
  let p := applyFontFormatting
    ⟨some cfg.fontName, some cfg.fontSize, some cfg.fontWeight⟩ p
  match alignMap cfg.alignment with
  | none => none
  | some al =>
    some { p with alignment := some al,
                  spaceBefore := some cfg.spaceBeforePt,
                  spaceAfter := some cfg.spaceAfterPt,
                  leftIndent := some (cfg.paragraphIndentCm.getD 0) }

/-- `format_list` (the constructed font dict carries only name and size). -/
def formatList (cfg : ListConfig) (p : Paragraph) : Option Paragraph :=
  let p := applyFontFormatting ⟨some cfg.fontName, some cfg.fontSize, none⟩ p
  match alignMap cfg.alignment with
  | none => none
  | some al =>
    let p := { p with alignment := some al, leftIndent := some cfg.indentCm }
    some (match lineSpacingMap cfg.fontLineSpacing with
          | some r => { p with lineSpacingRule := some r }
          | none => p)

/-- `format_regular` — no-op on visually empty paragraphs, else base font,
alignment, first-line indent, line spacing, zero spacing and side indents. -/
def formatRegular (cfg : BaseConfig) (p : Paragraph) : Option Paragraph :=
  if (pyStrip p.text).isEmpty then some p
  else
    let p := applyFontFormatting ⟨some cfg.fontName, some cfg.fontSize, none⟩ p
    match alignMap cfg.textAlignment with
    | none => none
    | some al =>
      let p := { p with alignment := some al,
                        firstLineIndent := some cfg.paragraphIndentCm }
      let p := match lineSpacingMap cfg.lineSpacing with
        | some r => { p with lineSpacingRule := some r }
        | none => p
      some { p with spaceBefore := some 0, spaceAfter := some 0,
                    leftIndent := some 0, rightIndent := some 0 }

/-- `format_references_header` (runs on the H1 formatting block). -/
def formatReferencesHeader (h1Cfg : HeadingConfig) (p : Paragraph) :
    Option Paragraph :=
  let p := applyFontFormatting
    ⟨some h1Cfg.fontName, some h1Cfg.fontSize, some h1Cfg.fontWeight⟩ p
  let p := if h1Cfg.textTransform == "uppercase" then makeTextUppercase h1Cfg p
           else p
  match alignMap h1Cfg.alignment with
  | none => none
  | some al =>
    let p := { p with alignment := some al,
                      spaceBefore := some h1Cfg.spaceBeforePt,
                      spaceAfter := some h1Cfg.spaceAfterPt,
                      firstLineIndent := some 0, leftIndent := some 0,
                      rightIndent := some 0,
                      lineSpacingRule := lineSpacingMap 10 }
    some (if h1Cfg.pageBreakBefore then addPageBreakBefore p else p)

/-- `format_bibliography_entry` — first-line indent per the references
content block. -/
def formatBibliographyEntry (cfg : RefsContentConfig) (p : Paragraph) :
    Option Paragraph :=
  let p := applyFontFormatting ⟨some cfg.fontName, some cfg.fontSize, none⟩ p
  match alignMap cfg.alignment with
  | none => none
  | some al =>
    let p := { p with alignment := some al,
                      firstLineIndent := some cfg.paragraphIndentCm,
                      leftIndent := some 0 }
    let p := match lineSpacingMap cfg.lineSpacing with
      | some r => { p with lineSpacingRule := some r }
      | none => p
    some { p with spaceBefore := some (cfg.spaceBeforePt.getD 0),
                  spaceAfter := some (cfg.spaceAfterPt.getD 0) }

/-- `format_bibliography_continuation` — identical except the explicit zero
first-line indent. -/
def formatBibliographyContinuation (cfg : RefsContentConfig) (p : Paragraph) :
    Option Paragraph :=
  let p := applyFontFormatting ⟨some cfg.fontName, some cfg.fontSize, none⟩ p
  match alignMap cfg.alignment with
  | none => none
  | some al =>
    let p := { p with alignment := some al,
                      firstLineIndent := some 0, leftIndent := some 0 }
    let p := match lineSpacingMap cfg.lineSpacing with
      | some r => { p with lineSpacingRule := some r }
      | none => p
    some { p with spaceBefore := some (cfg.spaceBeforePt.getD 0),
                  spaceAfter := some (cfg.spaceAfterPt.getD 0) }

/-- `format_special_section` — the references name runs the title block,
other known names their plain block, unknown names fall back to
`format_regular`. -/
def formatSpecialSection (req : Requirements) (name : String) (p : Paragraph) :
    Option Paragraph :=
  if name == "references" then
    let cfg := req.refsTitleCfg
    let p := applyFontFormatting
      ⟨some cfg.fontName, some cfg.fontSize, some cfg.fontWeight⟩ p
    let p := if cfg.textTransform == "uppercase" then makeTextUppercase cfg p
             else p
    match alignMap cfg.alignment with
    | none => none
    | some al =>
      let p := { p with alignment := some al,
                        spaceBefore := some cfg.spaceBeforePt,
                        spaceAfter := some cfg.spaceAfterPt,
                        firstLineIndent := some 0, leftIndent := some 0,
                        rightIndent := some 0,
                        lineSpacingRule := lineSpacingMap 10 }
      some (if cfg.pageBreakBefore then addPageBreakBefore p else p)
  else
    match List.lookup name req.sectionCfgs with
    | some cfg =>
      let p := applyFontFormatting ⟨some cfg.fontName, some cfg.fontSize, none⟩ p
      match alignMap cfg.alignment with
      | none => none
      | some al =>
        let p := { p with alignment := some al,
                          firstLineIndent := some cfg.paragraphIndentCm }
        let p := match lineSpacingMap cfg.lineSpacing with
          | some r => { p with lineSpacingRule := some r }
          | none => p
        some { p with spaceBefore := some 0, spaceAfter := some 0 }
    | none => formatRegular req.baseCfg p

/-- `format_table_caption` / `format_figure_caption` (identical bodies over
their caption blocks; `line_spacing` is read with `.get(..., 1.0)`). -/
def formatCaption (cfg : CaptionConfig) (p : Paragraph) : Option Paragraph :=
  let p := applyFontFormatting
    ⟨some cfg.fontName, some cfg.fontSize, some cfg.fontWeight⟩ p
  match alignMap cfg.alignment with
  | none => none
  | some al =>
    let p := { p with alignment := some al,
                      spaceBefore := some cfg.spacing.beforePt,
                      spaceAfter := some cfg.spacing.afterPt,
                      firstLineIndent := some 0, leftIndent := some 0,
                      rightIndent := some 0 }
    some (match lineSpacingMap (cfg.lineSpacing.getD 10) with
          | some r => { p with lineSpacingRule := some r }
          | none => p)

/-- `format_figure_image` — alignment and spacing only. -/
def formatFigureImage (cfg : FigureImageConfig) (p : Paragraph) :
    Option Paragraph :=
  match alignMap cfg.alignment with
  | none => none
  | some al =>
    some { p with alignment := some al,
                  spaceBefore := some cfg.spacing.beforePt,
                  spaceAfter := some cfg.spacing.afterPt,
                  firstLineIndent := some 0, leftIndent := some 0,
                  rightIndent := some 0 }

/-- `format_formula` / `format_formula_numbering` (identical bodies over
their blocks). -/
def formatFormulaLike (cfg : FormulaConfig) (p : Paragraph) : Option Paragraph :=
  let p := applyFontFormatting ⟨some cfg.fontName, some cfg.fontSize, none⟩ p
  match alignMap cfg.alignment with
  | none => none
  | some al =>
    some { p with alignment := some al,
                  spaceBefore := some cfg.spacing.beforePt,
                  spaceAfter := some cfg.spacing.afterPt,
                  firstLineIndent := some 0, leftIndent := some 0,
                  rightIndent := some 0 }

/-- `format_formula_explanation` (`line_spacing` read with `.get(..., 1.5)`). -/
def formatFormulaExplanation (cfg : FormulaExplainConfig) (p : Paragraph) :
    Option Paragraph :=
  let p := applyFontFormatting ⟨some cfg.fontName, some cfg.fontSize, none⟩ p
  match alignMap cfg.alignment with
  | none => none
  | some al =>
    let p := { p with alignment := some al,
                      firstLineIndent := some cfg.indentCm,
                      leftIndent := some 0, rightIndent := some 0 }
    let p := match lineSpacingMap (cfg.lineSpacing.getD 15) with
      | some r => { p with lineSpacingRule := some r }
      | none => p
    some { p with spaceBefore := some cfg.spacing.beforePt,
                  spaceAfter := some cfg.spacing.afterPt }

/-! ### Tables -/

inductive TableAlignment where
  | center | left
deriving DecidableEq, Repr

structure TableCell where
  paragraphs : List Paragraph := []
deriving DecidableEq, Repr

structure TableRow where
  cells : List TableCell := []
deriving DecidableEq, Repr

structure Table where
  rows : List TableRow := []
  alignment : Option TableAlignment := none
  autofit : Bool := false
deriving DecidableEq, Repr

/-- The cell-paragraph body of `format_table` (header formatting on row 0,
content formatting elsewhere, zeroed indents and spacing, content line
spacing). -/
def formatTableCellParagraph (req : Requirements) (isHeader : Bool)
    (p : Paragraph) : Option Paragraph :=
  if (pyStrip p.text).isEmpty then some p
  else
    let p := if isHeader then
        applyFontFormatting ⟨some req.tablesHeader.fontName,
          some req.tablesHeader.fontSize, some req.tablesHeader.fontWeight⟩ p
      else
        applyFontFormatting ⟨some req.tablesContent.fontName,
          some req.tablesContent.fontSize, none⟩ p
    match alignMap (if isHeader then req.tablesHeader.alignment
                    else req.tablesContent.alignment) with
    | none => none
    | some al =>
      let p := { p with alignment := some al,
                        firstLineIndent := some 0, leftIndent := some 0,
                        rightIndent := some 0,
                        spaceBefore := some 0, spaceAfter := some 0 }
      some (match lineSpacingMap (req.tablesContent.lineSpacing.getD 10) with
            | some r => { p with lineSpacingRule := some r }
            | none => p)

/-- `ParagraphFormatter.format_table`. -/
def formatTable (req : Requirements) (t : Table) : Option Table :=
  let t := if req.tablesLayout.alignment == "center" then
      { t with alignment := some .center }
    else if req.tablesLayout.alignment == "left" then
      { t with alignment := some .left }
    else t
  let t := if req.tablesLayout.widthAuto then { t with autofit := true } else t
  (t.rows.enum.mapM (fun (ir : Nat × TableRow) =>
      (ir.2.cells.mapM (fun (cell : TableCell) =>
          (cell.paragraphs.mapM
            (formatTableCellParagraph req (ir.1 == 0))).map TableCell.mk)).map
        TableRow.mk)).map
    (fun rows => { t with rows := rows })

/-! ### Orchestrator (`vkr_formatter.py`) -/

/-- The mutable fields of `VKRFormatter`: the classifier's scan state, the
H1 counter and the statistics tracker. -/
structure VKRState where
  cls : DocumentState := {}
  h1Count : Nat := 0
  stats : List (String × Nat) := initialStats
deriving DecidableEq, Repr

/-- Shared tail of the dispatch branches: count the role when the formatter
succeeded; a `none` (raised) formatter leaves the role counter untouched and
is turned into an `errors` increment by the caller's `except` clause. -/
def withRoleCount (vs : VKRState) (key : String) (res : Option Paragraph) :
    VKRState × Option Paragraph :=
  match res with
  | some q => ({ vs with stats := incrementStat vs.stats key }, some q)
  | none => (vs, none)

/-- The state effect of a successful H1 dispatch: bump the counter and the
`h1_formatted` statistic. -/
def h1Step (vs : VKRState) : VKRState :=
  { vs with
    h1Count := vs.h1Count + 1
    stats := incrementStat vs.stats "h1_formatted" }

/-- `VKRFormatter._apply_paragraph_formatting` — the role dispatch.  The H1
branch first bumps `h1_count` and hands `h1_count - 1` (the number of
previously formatted H1s) to `format_h1`. -/
def applyParagraphFormatting (req : Requirements) (vs : VKRState)
    (ptype : String) (p : Paragraph) : VKRState × Option Paragraph :=
  if ptype == "skip" then
    ({ vs with stats := incrementStat vs.stats "skipped_paragraphs" }, some p)
  else if ptype == "h1" then
    let vs := { vs with h1Count := vs.h1Count + 1 }
    withRoleCount vs "h1_formatted" (formatH1 req.h1Cfg p (vs.h1Count - 1))
  else if ptype == "h2" then
    withRoleCount vs "h2_formatted" (formatHeadingLower req.h2Cfg p)
  else if ptype == "h3" then
    withRoleCount vs "h3_formatted" (formatHeadingLower req.h3Cfg p)
  else if ptype == "h4" then
    withRoleCount vs "h4_formatted" (formatHeadingLower req.h4Cfg p)
  else if ptype == "list" then
    withRoleCount vs "lists_formatted" (formatList req.listCfg p)
  else if ptype == "references_header" then
    withRoleCount vs "references_headers_formatted"
      (formatReferencesHeader req.h1Cfg p)
  else if ptype == "bibliography_entry" then
    withRoleCount vs "bibliography_entries_formatted"
      (formatBibliographyEntry req.refsContentCfg p)
  else if ptype == "bibliography_continuation" then
    withRoleCount vs "bibliography_continuations_formatted"
      (formatBibliographyContinuation req.refsContentCfg p)
  else if ptype == "references_text" then
    withRoleCount vs "references_text_formatted"
      (formatBibliographyEntry req.refsContentCfg p)
  else if ptype.startsWith "special_" then
    let sectionName := ptype.replace "special_" ""
    withRoleCount vs ("special_" ++ sectionName ++ "_formatted")
      (formatSpecialSection req sectionName p)
  else if ptype == "table_caption" then
    withRoleCount vs "table_captions_formatted"
      (formatCaption req.tablesCaption p)
  else if ptype == "figure_image" then
    withRoleCount vs "figure_images_formatted"
      (formatFigureImage req.figuresImage p)
  else if ptype == "figure_caption" then
    withRoleCount vs "figure_captions_formatted"
      (formatCaption req.figuresCaption p)
  else if ptype == "formula" then
    withRoleCount vs "formulas_formatted" (formatFormulaLike req.formulaCfg p)
  else if ptype == "formula_numbering" then
    withRoleCount vs "formula_numbering_formatted"
      (formatFormulaLike req.formulaNumberingCfg p)
  else if ptype == "formula_explanation" then
    withRoleCount vs "formula_explanations_formatted"
      (formatFormulaExplanation req.formulaExplainCfg p)
  else
    withRoleCount vs "regular_formatted" (formatRegular req.baseCfg p)

/-- The `try/except` around one paragraph's dispatch: a raised formatter
(`none` outcome) is caught and folded into the `errors` counter; a
successful one passes through. -/
def catchStep (r : VKRState × Option Paragraph) : VKRState × Option Paragraph :=
  match r.2 with
  | some q => (r.1, some q)
  | none => ({ r.1 with stats := incrementStat r.1.stats "errors" }, none)

/-- One iteration of `_process_all_paragraphs`: count the paragraph, strip
its text, classify (style-based or pattern-based), dispatch, and catch a
raised formatter into the `errors` counter. -/
def stepParagraph (req : Requirements) (useStyle strict : Bool)
    (vs : VKRState) (p : Paragraph) : VKRState × Option Paragraph :=
  let vs := { vs with stats := incrementStat vs.stats "total_paragraphs" }
  let text := pyStrip p.text
  let c :=
    if useStyle then StyleCls.classifyParagraphByStyle req strict vs.cls p text
    else classifyParagraph req vs.cls text
  let vs := { vs with cls := c.2 }
  catchStep (applyParagraphFormatting req vs c.1 p)

/-- `_process_all_paragraphs`, also yielding each paragraph's outcome
(`none` = that paragraph's formatting raised and was caught). -/
def processParagraphs (req : Requirements) (useStyle strict : Bool)
    (vs : VKRState) : List Paragraph → VKRState × List (Option Paragraph)
  | [] => (vs, [])
  | p :: rest =>
    let r1 := stepParagraph req useStyle strict vs p
    let r2 := processParagraphs req useStyle strict r1.1 rest
    (r2.1, r1.2 :: r2.2)

/-- The dispatch pass over already-classified paragraphs (the body of the
paragraph loop after classification), used to state the H1 page-break rule. -/
def processClassified (req : Requirements) (vs : VKRState) :
    List (String × Paragraph) → VKRState × List (Option Paragraph)
  | [] => (vs, [])
  | item :: rest =>
    let r1 := applyParagraphFormatting req vs item.1 item.2
    let r2 := processClassified req r1.1 rest
    (r2.1, r1.2 :: r2.2)

/-- One iteration of `_process_all_tables`: a raised table format is caught
into `errors`, a successful one counts `tables_formatted`. -/
def stepTable (req : Requirements) (vs : VKRState) (t : Table) : VKRState :=
  match formatTable req t with
  | some _ => { vs with stats := incrementStat vs.stats "tables_formatted" }
  | none => { vs with stats := incrementStat vs.stats "errors" }

/-- `_process_all_tables`. -/
def processTables (req : Requirements) (vs : VKRState) :
    List Table → VKRState
  | [] => vs
  | t :: rest => processTables req (stepTable req vs t) rest

/-! ### Document-level run -/

/-- A page section with settable margins. -/
structure DocSection where
  topMargin : Option Int := none
  bottomMargin : Option Int := none
  leftMargin : Option Int := none
  rightMargin : Option Int := none
deriving DecidableEq, Repr

/-- The document object surface the orchestrator touches. -/
structure DocxDocument where
  paragraphs : List Paragraph := []
  tables : List Table := []
  sections : List DocSection := []
  normalFontName : Option String := none
  normalFontSize : Option Nat := none
deriving DecidableEq, Repr

/-- `_apply_global_settings` — margins on every section, then the Normal
style font (the typed config makes both dict accesses total). -/
def applyGlobalSettings (req : Requirements) (doc : DocxDocument) :
    DocxDocument :=
  let m := req.baseCfg
  { doc with
    sections := doc.sections.map (fun _ =>
      { topMargin := some m.marginsTop, bottomMargin := some m.marginsBottom,
        leftMargin := some m.marginsLeft, rightMargin := some m.marginsRight }),
    normalFontName := some m.fontName,
    normalFontSize := some m.fontSize }

/-- The ambient I/O of one `format_document` call: whether the input path
exists, what loading it produced (`none` = `Document(...)` raised), whether
`doc.save` succeeded, and whether the output file exists afterwards. -/
structure FormatInput where
  inputExists : Bool
  loadResult : Option DocxDocument
  saveOk : Bool
  outputExistsAfterSave : Bool

/-- `VKRFormatter.format_document` — missing input short-circuits to
`False`; load/save failures are caught by the outer `except` into `False`;
per-paragraph and per-table failures are already folded into the state. -/
def formatDocument (req : Requirements) (useStyle strict : Bool)
    (inp : FormatInput) : Bool × VKRState :=
  let vs0 : VKRState := {}
  if !inp.inputExists then (false, vs0)
  else
    match inp.loadResult with
    | none => (false, vs0)
    | some doc =>
      let doc := applyGlobalSettings req doc
      let vs1 := (processParagraphs req useStyle strict vs0 doc.paragraphs).1
      let vs2 := processTables req vs1 doc.tables
      if !inp.saveOk then (false, vs2)
      else if !inp.outputExistsAfterSave then (false, vs2)
      else (true, vs2)

/-- `format_vkr_document` — the public entry point: always a
`(success, statistics)` pair. -/
def formatVkrDocument (req : Requirements) (useStyle strict : Bool)
    (inp : FormatInput) : Bool × StatisticsReport :=
  let r := formatDocument req useStyle strict inp
  (r.1, getStatistics r.2.stats r.2.cls)

/-- The roles of the fixed enumeration in §3 of the spec, before the
requirement-dependent `special_<name>` family. -/
def baseRoles : List String :=
  ["skip", "h1", "h2", "h3", "h4", "list", "regular", "references_header",
   "bibliography_entry", "bibliography_continuation", "table_caption",
   "figure_caption", "figure_image", "formula", "formula_numbering",
   "formula_explanation"]

/-- A classifier output belongs to the fixed enumeration: a base role or
`special_<name>` for a section name of the requirements model. -/
def validRole (req : Requirements) (r : String) : Bool :=
  baseRoles.contains r ||
  req.specialSections.any (fun sec => r == "special_" ++ sec.1)

/-- The paragraph produced by a successful non-trivial `format_regular` run
(named here to state its idempotence): base font on every run, the resolved
alignment, first-line indent, line-spacing rule when the config value is a
map key, zero spacing and zero side indents. -/
def regularShape (cfg : BaseConfig) (al : Alignment) (p : Paragraph) :
    Paragraph :=
  let p1 := applyFontFormatting ⟨some cfg.fontName, some cfg.fontSize, none⟩ p
  { p1 with
    alignment := some al,
    firstLineIndent := some cfg.paragraphIndentCm,
    lineSpacingRule := (match lineSpacingMap cfg.lineSpacing with
      | some r => some r
      | none => p1.lineSpacingRule),
    spaceBefore := some 0, spaceAfter := some 0,
    leftIndent := some 0, rightIndent := some 0 }

/-- The three mutating operations of `DocumentState`. -/
inductive DocStateOp where
  | contents | main | refs
deriving DecidableEq, Repr

/-- Apply one state operation. -/
def applyStateOp (o : DocStateOp) (st : DocumentState) : DocumentState :=
  match o with
  | .contents => st.startContentsSection
  | .main => st.startMainContent
  | .refs => st.startReferencesSection

/-- Run a sequence of state operations from a starting state. -/
def runStateOps (ops : List DocStateOp) (st : DocumentState) : DocumentState :=
  ops.foldl (fun s o => applyStateOp o s) st

/-! ## Supporting lemmas -/

theorem lookup_map_incr (name : String) (l : List (String × Nat)) :
    List.lookup name (l.map (bumpIfNamed name))
      = (List.lookup name l).map (· + 1) := by
  induction l with
  | nil => rfl
  | cons hd tl ih =>
    cases hb : hd.1 == name with
    | true =>
      have h : hd.1 = name := by simpa using hb
      simp [bumpIfNamed, List.lookup, hb, h, ih]
    | false =>
      have h : ¬(name = hd.1) := by
        intro he; rw [he] at hb; simp at hb
      have hb2 : (name == hd.1) = false := beq_eq_false_iff_ne.mpr h
      simp [bumpIfNamed, List.lookup, hb, hb2, ih]

theorem lookup_map_incr_ne (name k : String) (h : k ≠ name)
    (l : List (String × Nat)) :
    List.lookup k (l.map (bumpIfNamed name)) = List.lookup k l := by
  induction l with
  | nil => rfl
  | cons hd tl ih =>
    cases hb : hd.1 == name with
    | true =>
      have hh : hd.1 = name := by simpa using hb
      have hk : ¬(k = hd.1) := by rw [hh]; exact h
      have hkb : (k == hd.1) = false := beq_eq_false_iff_ne.mpr hk
      simp [bumpIfNamed, List.lookup, hb, hkb, ih]
    | false =>
      by_cases hk : k = hd.1
      · have hkb : (k == hd.1) = true := by simp [hk]
        simp [bumpIfNamed, List.lookup, hb, hkb]
      · have hkb : (k == hd.1) = false := beq_eq_false_iff_ne.mpr hk
        simp [bumpIfNamed, List.lookup, hb, hkb, ih]

theorem lookup_append_pairs (k : String) (l1 l2 : List (String × Nat)) :
    List.lookup k (l1 ++ l2)
      = ((List.lookup k l1).orElse fun _ => List.lookup k l2) := by
  induction l1 with
  | nil => simp [List.lookup]
  | cons hd tl ih =>
    by_cases hk : k = hd.1
    · simp [List.lookup, hk]
    · have : (k == hd.1) = false := by simp [hk]
      simp [List.lookup, this, ih]

theorem statCount_increment_self (stats : List (String × Nat)) (name : String) :
    statCount (incrementStat stats name) name = statCount stats name + 1 := by
  unfold incrementStat
  by_cases h : (List.lookup name stats).isSome
  · simp only [h, if_pos]
    unfold statCount
    rw [lookup_map_incr]
    obtain ⟨v, hv⟩ := Option.isSome_iff_exists.mp h
    simp [hv]
  · simp only [h, if_neg, Bool.not_eq_true]
    unfold statCount
    rw [lookup_append_pairs]
    rw [Option.not_isSome_iff_eq_none] at h
    simp [h, List.lookup]

theorem statCount_increment_ne (stats : List (String × Nat)) (name k : String)
    (h : k ≠ name) :
    statCount (incrementStat stats name) k = statCount stats k := by
  unfold incrementStat
  by_cases hs : (List.lookup name stats).isSome
  · simp only [hs, if_pos]
    unfold statCount
    rw [lookup_map_incr_ne name k h]
  · simp only [hs, if_neg, Bool.not_eq_true]
    unfold statCount
    rw [lookup_append_pairs]
    have : List.lookup k [(name, 1)] = none := by
      have : (k == name) = false := by simp [h]
      simp [List.lookup, this]
    cases hl : List.lookup k stats <;> simp [this]

theorem statCount_increment_le (stats : List (String × Nat)) (name k : String) :
    statCount stats k ≤ statCount (incrementStat stats name) k := by
  by_cases h : k = name
  · subst h; rw [statCount_increment_self]; omega
  · rw [statCount_increment_ne stats name k h]

/-! ## C10 — statistics increment -/

/-- C10: `StatisticsTracker.increment(name)` increases the counter stored
under `name` by exactly one (initialising an absent name to 1 — covered by
`statCount`'s default 0), leaves every other counter unchanged, and no
increment ever decreases any counter. -/
theorem c10_statistics_increment (stats : List (String × Nat))
    (name other : String) (h : other ≠ name) :
    statCount (incrementStat stats name) name = statCount stats name + 1 ∧
    statCount (incrementStat stats name) other = statCount stats other ∧
    ∀ k, statCount stats k ≤ statCount (incrementStat stats name) k :=
  ⟨statCount_increment_self stats name,
   statCount_increment_ne stats name other h,
   fun k => statCount_increment_le stats name k⟩

/-- Witness for C10 at a concrete tracker state. -/
theorem c10_statistics_increment_witness :
    statCount (incrementStat initialStats "errors") "errors"
      = statCount initialStats "errors" + 1 ∧
    statCount (incrementStat initialStats "errors") "h1_formatted"
      = statCount initialStats "h1_formatted" ∧
    ∀ k, statCount initialStats k
      ≤ statCount (incrementStat initialStats "errors") k := by
  have h := c10_statistics_increment initialStats "errors" "h1_formatted"
    (by decide)
  exact ⟨h.1, h.2.1, h.2.2⟩

/-! ## Scan-state preservation lemmas -/

theorem classifySpecialSections_state (req : Requirements)
    (st : DocumentState) (t : String) :
    (StyleCls.classifySpecialSections req st t).2.inTitleSection
        = st.inTitleSection ∧
    (StyleCls.classifySpecialSections req st t).2.inContentsSection
        = st.inContentsSection ∧
    (StyleCls.classifySpecialSections req st t).2.foundMainContent
        = st.foundMainContent := by
  unfold StyleCls.classifySpecialSections
  cases hA : req.referencesKeywords.any
      (fun kw => strContains (pyUpper t) (pyUpper kw)) with
  | true => simp [hA, DocumentState.startReferencesSection]
  | false =>
    simp only [hA]
    repeat' split
    all_goals simp [DocumentState.startReferencesSection]

theorem classifyContentByStyle_state (req : Requirements) (strict : Bool)
    (st : DocumentState) (p : Paragraph) (t : String) :
    (StyleCls.classifyContentParagraphByStyle req strict st p t).2.inTitleSection
        = st.inTitleSection ∧
    (StyleCls.classifyContentParagraphByStyle req strict st p t).2.inContentsSection
        = st.inContentsSection ∧
    (StyleCls.classifyContentParagraphByStyle req strict st p t).2.foundMainContent
        = st.foundMainContent := by
  have hs := classifySpecialSections_state req st t
  simp only [StyleCls.classifyContentParagraphByStyle]
  repeat' split
  all_goals (try exact hs)
  all_goals simp

theorem classifyParagraph_found (req : Requirements) (st : DocumentState)
    (text : String) (h : st.foundMainContent = true) :
    (classifyParagraph req st text).2.foundMainContent = true := by
  simp only [classifyParagraph, classifyInContentsSection]
  repeat' split
  all_goals
    simp [DocumentState.startContentsSection, DocumentState.startMainContent, h]

theorem classifyParagraphByStyle_found (req : Requirements) (strict : Bool)
    (st : DocumentState) (p : Paragraph) (text : String)
    (h : st.foundMainContent = true) :
    (StyleCls.classifyParagraphByStyle req strict st p text).2.foundMainContent
      = true := by
  simp only [StyleCls.classifyParagraphByStyle,
    StyleCls.classifyInContentsSectionByStyle]
  repeat' split
  all_goals
    try (rw [(classifyContentByStyle_state _ _ _ _ _).2.2]
         first
           | rfl
           | exact h)
  all_goals
    try simp [DocumentState.startContentsSection, DocumentState.startMainContent, h]

/-! ## C4 — monotone scan state -/

/-- C4: `found_main_content` is monotone — no state operation resets it, and
neither classifier's step resets it — and along any operation sequence from
the initial state, `in_title_section` and `found_main_content` are never
simultaneously true. -/
theorem c4_scan_state_monotonic :
    (∀ (o : DocStateOp) (st : DocumentState), st.foundMainContent = true →
        (applyStateOp o st).foundMainContent = true) ∧
    (∀ ops : List DocStateOp,
        ¬((runStateOps ops initialDocumentState).inTitleSection = true ∧
          (runStateOps ops initialDocumentState).foundMainContent = true)) ∧
    (∀ (req : Requirements) (st : DocumentState) (text : String),
        st.foundMainContent = true →
        (classifyParagraph req st text).2.foundMainContent = true) ∧
    (∀ (req : Requirements) (strict : Bool) (st : DocumentState)
        (p : Paragraph) (text : String), st.foundMainContent = true →
        (StyleCls.classifyParagraphByStyle req strict st p text).2.foundMainContent
          = true) := by
  refine ⟨?_, ?_, ?_, ?_⟩
  · intro o st h
    cases o <;>
      simp [applyStateOp, DocumentState.startContentsSection,
        DocumentState.startMainContent, DocumentState.startReferencesSection, h]
  · have key : ∀ (ops : List DocStateOp) (st : DocumentState),
        (st.inTitleSection = true → st.foundMainContent = false) →
        ((runStateOps ops st).inTitleSection = true →
          (runStateOps ops st).foundMainContent = false) := by
      intro ops
      induction ops with
      | nil => intro st h; exact h
      | cons o rest ih =>
        intro st h
        have : (applyStateOp o st).inTitleSection = true →
            (applyStateOp o st).foundMainContent = false := by
          cases o <;>
            simp [applyStateOp, DocumentState.startContentsSection,
              DocumentState.startMainContent,
              DocumentState.startReferencesSection] <;>
            exact fun ht => h ht
        exact ih (applyStateOp o st) this
    intro ops ⟨h1, h2⟩
    have := key ops initialDocumentState (fun _ => rfl) h1
    rw [h2] at this
    simp at this
  · exact classifyParagraph_found
  · exact classifyParagraphByStyle_found

theorem classifyParagraph_title (req : Requirements) (st : DocumentState)
    (text : String) :
    (classifyParagraph req st text).2.inTitleSection = true →
      st.inTitleSection = true := by
  simp only [classifyParagraph, classifyInContentsSection]
  repeat' split
  all_goals intro h'
  all_goals
    simp_all [DocumentState.startContentsSection, DocumentState.startMainContent]

theorem classifyParagraph_contents (req : Requirements) (st : DocumentState)
    (text : String)
    (hdr : ContentDetector.isContentsHeader (pyStrip text) = false) :
    (classifyParagraph req st text).2.inContentsSection = true →
      st.inContentsSection = true := by
  simp only [classifyParagraph, classifyInContentsSection]
  repeat' split
  all_goals intro h'
  all_goals
    simp_all [DocumentState.startContentsSection, DocumentState.startMainContent]

theorem classifyParagraphByStyle_title (req : Requirements) (strict : Bool)
    (st : DocumentState) (p : Paragraph) (text : String) :
    (StyleCls.classifyParagraphByStyle req strict st p text).2.inTitleSection
        = true → st.inTitleSection = true := by
  simp only [StyleCls.classifyParagraphByStyle,
    StyleCls.classifyInContentsSectionByStyle]
  repeat' split
  all_goals intro h'
  all_goals
    try rw [(classifyContentByStyle_state _ _ _ _ _).1] at h'
  all_goals
    simp_all [DocumentState.startContentsSection, DocumentState.startMainContent]

theorem classifyParagraphByStyle_contents (req : Requirements) (strict : Bool)
    (st : DocumentState) (p : Paragraph) (text : String)
    (hdr : ContentDetector.isContentsHeader (pyStrip text) = false) :
    (StyleCls.classifyParagraphByStyle req strict st p text).2.inContentsSection
        = true → st.inContentsSection = true := by
  simp only [StyleCls.classifyParagraphByStyle,
    StyleCls.classifyInContentsSectionByStyle]
  repeat' split
  all_goals intro h'
  all_goals
    try rw [(classifyContentByStyle_state _ _ _ _ _).2.1] at h'
  all_goals
    simp_all [DocumentState.startContentsSection, DocumentState.startMainContent]

/-! ## C3 — no return to TITLE or CONTENTS after MAIN -/

/-- Counterexample for C3: after MAIN is reached (via "1. ВВЕДЕНИЕ"), a
paragraph whose text is a contents header ("СОДЕРЖАНИЕ") sets
`in_contents_section` back to true — the state machine does return to the
CONTENTS state after MAIN. -/
theorem c3_counterexample_contents_header_after_main :
    (classifyParagraph defaultRequirements initialDocumentState
        "1. ВВЕДЕНИЕ").2.foundMainContent = true ∧
    (classifyParagraph defaultRequirements initialDocumentState
        "1. ВВЕДЕНИЕ").2.inContentsSection = false ∧
    (classifyParagraph defaultRequirements
        (classifyParagraph defaultRequirements initialDocumentState
          "1. ВВЕДЕНИЕ").2 "СОДЕРЖАНИЕ").2.inContentsSection = true ∧
    (classifyParagraph defaultRequirements
        (classifyParagraph defaultRequirements initialDocumentState
          "1. ВВЕДЕНИЕ").2 "СОДЕРЖАНИЕ").2.foundMainContent = true := by
  decide

/-- C3 (amended): no classification step of either classifier ever sets
`in_title_section` back to true, and a step sets `in_contents_section` back
to true only when its (stripped) text is a contents header — in particular,
once MAIN is reached, the state never returns to TITLE, and returns to
CONTENTS only on a contents-header paragraph. -/
theorem c3_no_return_to_title_or_contents :
    (∀ (req : Requirements) (st : DocumentState) (text : String),
        ((classifyParagraph req st text).2.inTitleSection = true →
          st.inTitleSection = true) ∧
        (ContentDetector.isContentsHeader (pyStrip text) = false →
          (classifyParagraph req st text).2.inContentsSection = true →
          st.inContentsSection = true)) ∧
    (∀ (req : Requirements) (strict : Bool) (st : DocumentState)
        (p : Paragraph) (text : String),
        ((StyleCls.classifyParagraphByStyle req strict st p text).2.inTitleSection
            = true → st.inTitleSection = true) ∧
        (ContentDetector.isContentsHeader (pyStrip text) = false →
          (StyleCls.classifyParagraphByStyle req strict st p
              text).2.inContentsSection = true →
          st.inContentsSection = true)) :=
  ⟨fun req st text =>
    ⟨classifyParagraph_title req st text,
     fun hdr => classifyParagraph_contents req st text hdr⟩,
   fun req strict st p text =>
    ⟨classifyParagraphByStyle_title req strict st p text,
     fun hdr => classifyParagraphByStyle_contents req strict st p text hdr⟩⟩

/-- Witness for C3 (amended) at a concrete state and text. -/
theorem c3_no_return_witness :
    initialDocumentState.startContentsSection.inTitleSection = true ∧
    initialDocumentState.startContentsSection.inContentsSection = true ∧
    initialDocumentState.startContentsSection.inContentsSection = true :=
  ⟨(c3_no_return_to_title_or_contents.1 defaultRequirements
      initialDocumentState.startContentsSection "Пример").1 (by decide),
   (c3_no_return_to_title_or_contents.1 defaultRequirements
      initialDocumentState.startContentsSection "Пример").2 (by decide)
      (by decide),
   (c3_no_return_to_title_or_contents.2 defaultRequirements false
      initialDocumentState.startContentsSection
      { runs := [{ text := "Пример" }], styleName := some "Normal" }
      "Пример").2 (by decide) (by decide)⟩

/-! ## C5 — contents-line exclusion from the MAIN transition -/

/-- C5: in the CONTENTS state, the line `"1. Введение    5"` (trailing page
number) classifies as `skip` and leaves the state unchanged; the line
`"1. ВВЕДЕНИЕ"` (no trailing number) then triggers the MAIN transition
(`found_main_content` becomes true) and is itself classified `h1`. -/
theorem c5_contents_line_exclusion :
    classifyParagraph defaultRequirements
        initialDocumentState.startContentsSection "1. Введение    5"
      = ("skip", initialDocumentState.startContentsSection) ∧
    (classifyParagraph defaultRequirements
        initialDocumentState.startContentsSection "1. ВВЕДЕНИЕ").1 = "h1" ∧
    (classifyParagraph defaultRequirements
        initialDocumentState.startContentsSection
        "1. ВВЕДЕНИЕ").2.foundMainContent = true := by
  refine ⟨by decide, by decide, by decide⟩

/-! ## C9 helper lemmas — font application is idempotent and text-preserving -/

theorem applyRunFont_text (fs : FontSpec) (r : Run) :
    (applyRunFont fs r).text = r.text := by
  obtain ⟨nm, sz, wt⟩ := fs
  cases nm <;> cases sz <;> cases hw : wt == some "bold" <;>
    simp [applyRunFont, hw]

theorem applyRunFont_idem (fs : FontSpec) (r : Run) :
    applyRunFont fs (applyRunFont fs r) = applyRunFont fs r := by
  obtain ⟨nm, sz, wt⟩ := fs
  cases nm <;> cases sz <;> cases hw : wt == some "bold" <;>
    simp [applyRunFont, hw]

theorem applyFontFormatting_text (fs : FontSpec) (p : Paragraph) :
    (applyFontFormatting fs p).text = p.text := by
  unfold applyFontFormatting Paragraph.text
  cases hr : p.runs with
  | nil => simp [applyRunFont_text]; decide
  | cons a l => simp [applyRunFont_text, List.map_map, Function.comp_def]

theorem applyFontFormatting_runs_nonempty (fs : FontSpec) (p : Paragraph) :
    (applyFontFormatting fs p).runs.isEmpty = false := by
  unfold applyFontFormatting
  cases hr : p.runs <;> simp

theorem applyFontFormatting_idem (fs : FontSpec) (p : Paragraph) :
    applyFontFormatting fs (applyFontFormatting fs p)
      = applyFontFormatting fs p := by
  unfold applyFontFormatting
  cases hr : p.runs with
  | nil => simp [List.map_map, Function.comp_def, applyRunFont_idem]
  | cons a l => simp [List.map_map, Function.comp_def, applyRunFont_idem]

theorem applyFontFormatting_runs_only (fs : FontSpec) (p q : Paragraph)
    (h : q.runs = p.runs) :
    (applyFontFormatting fs q).runs = (applyFontFormatting fs p).runs := by
  unfold applyFontFormatting
  rw [h]

/-- A successful non-trivial `format_regular` run produces exactly
`regularShape`. -/
theorem formatRegular_some (cfg : BaseConfig) (p : Paragraph) (al : Alignment)
    (he : (pyStrip p.text).isEmpty = false)
    (hal : alignMap cfg.textAlignment = some al) :
    formatRegular cfg p = some (regularShape cfg al p) := by
  unfold formatRegular regularShape
  cases hm : lineSpacingMap cfg.lineSpacing <;> simp [he, hal, hm]

theorem regularShape_text (cfg : BaseConfig) (al : Alignment) (p : Paragraph) :
    (regularShape cfg al p).text = p.text := by
  unfold regularShape
  exact applyFontFormatting_text _ p

theorem regularShape_idem (cfg : BaseConfig) (al : Alignment) (p : Paragraph) :
    regularShape cfg al (regularShape cfg al p) = regularShape cfg al p := by
  unfold regularShape
  have hruns : (applyFontFormatting
        ⟨some cfg.fontName, some cfg.fontSize, none⟩
        (applyFontFormatting ⟨some cfg.fontName, some cfg.fontSize, none⟩ p)).runs
      = (applyFontFormatting
          ⟨some cfg.fontName, some cfg.fontSize, none⟩ p).runs :=
    congrArg Paragraph.runs (applyFontFormatting_idem _ p)
  cases hm : lineSpacingMap cfg.lineSpacing <;>
    simp [applyFontFormatting, hm] <;>
    simpa [applyFontFormatting] using hruns

/-! ## C9 — `format_regular` idempotence -/

/-- C9: re-running `format_regular` on its own output is a no-op — the
second application returns exactly the same paragraph (covering run font
name/size, alignment, first-line/left/right indents, line-spacing rule and
spacing, i.e. every observable paragraph property). -/
theorem c9_format_regular_idempotent (cfg : BaseConfig) (p q : Paragraph)
    (hq : formatRegular cfg p = some q) :
    formatRegular cfg q = some q := by
  cases he : (pyStrip p.text).isEmpty with
  | true =>
    unfold formatRegular at hq
    rw [he] at hq
    simp only [if_pos] at hq
    obtain rfl : p = q := Option.some.inj hq
    unfold formatRegular
    simp [he]
  | false =>
    cases hal : alignMap cfg.textAlignment with
    | none =>
      unfold formatRegular at hq
      rw [he, hal] at hq
      simp at hq
    | some al =>
      rw [formatRegular_some cfg p al he hal] at hq
      obtain rfl := Option.some.inj hq
      have he2 : (pyStrip (regularShape cfg al p).text).isEmpty = false := by
        rw [regularShape_text]; exact he
      rw [formatRegular_some cfg (regularShape cfg al p) al he2 hal,
        regularShape_idem]

/-- Witness for C9: the concrete formatted paragraph is a fixed point of
`format_regular` under the default base config. -/
theorem c9_format_regular_idempotent_witness :
    formatRegular defaultRequirements.baseCfg
      { runs := [{ text := "Пример текста",
                   fontName := some "Times New Roman", fontSize := some 14 }],
        alignment := some .justify, firstLineIndent := some 125,
        leftIndent := some 0, rightIndent := some 0,
        lineSpacingRule := some .onePointFive,
        spaceBefore := some 0, spaceAfter := some 0 }
      = some
      { runs := [{ text := "Пример текста",
                   fontName := some "Times New Roman", fontSize := some 14 }],
        alignment := some .justify, firstLineIndent := some 125,
        leftIndent := some 0, rightIndent := some 0,
        lineSpacingRule := some .onePointFive,
        spaceBefore := some 0, spaceAfter := some 0 } :=
  c9_format_regular_idempotent defaultRequirements.baseCfg
    { runs := [{ text := "Пример текста" }] }
    { runs := [{ text := "Пример текста",
                 fontName := some "Times New Roman", fontSize := some 14 }],
      alignment := some .justify, firstLineIndent := some 125,
      leftIndent := some 0, rightIndent := some 0,
      lineSpacingRule := some .onePointFive,
      spaceBefore := some 0, spaceAfter := some 0 }
    (by decide)

/-! ## C1 helper lemmas — every classifier branch yields a role of the
enumeration -/

theorem validRole_base (req : Requirements) (r : String)
    (h : baseRoles.contains r = true) : validRole req r = true := by
  unfold validRole
  rw [h]
  rfl

theorem findSome?_name_mem (l : List (String × List String))
    (f : String × List String → Bool) (b : String)
    (h : l.findSome? (fun sec => if f sec then some sec.1 else none)
        = some b) :
    ∃ sec, sec ∈ l ∧ sec.1 = b := by
  induction l with
  | nil => simp [List.findSome?] at h
  | cons hd tl ih =>
    rw [List.findSome?_cons] at h
    cases hf : f hd with
    | true =>
      rw [hf] at h
      simp only [if_pos] at h
      exact ⟨hd, List.mem_cons_self hd tl, Option.some.inj h⟩
    | false =>
      rw [hf] at h
      simp only [Bool.false_eq_true, if_false] at h
      obtain ⟨sec, hmem, hname⟩ := ih h
      exact ⟨sec, List.mem_cons_of_mem hd hmem, hname⟩

theorem validRole_specialSections (req : Requirements) (st : DocumentState)
    (t : String) :
    validRole req (StyleCls.classifySpecialSections req st t).1 = true := by
  unfold StyleCls.classifySpecialSections
  cases hA : req.referencesKeywords.any
      (fun kw => strContains (pyUpper t) (pyUpper kw)) with
  | true => simp only [hA, if_pos]; (apply validRole_base; rfl)
  | false =>
    simp only [hA, Bool.false_eq_true, if_false]
    repeat' split
    all_goals try (apply validRole_base; rfl)
    all_goals
      (rename_i name heq
       obtain ⟨sec, hmem, hname⟩ := findSome?_name_mem _ _ _ heq
       unfold validRole
       have hany : req.specialSections.any
           (fun s => ("special_" ++ name) == "special_" ++ s.1) = true :=
         List.any_eq_true.mpr ⟨sec, hmem, by rw [hname]; exact beq_self_eq_true _⟩
       rw [hany]
       simp)

theorem validRole_contentElements (req : Requirements) (t : String) :
    validRole req (StyleCls.classifyContentElements req t) = true := by
  unfold StyleCls.classifyContentElements
  repeat' split
  all_goals (apply validRole_base; rfl)

theorem validRole_byTextPatterns (req : Requirements) (t : String) :
    validRole req (StyleCls.classifyByTextPatterns req t) = true := by
  unfold StyleCls.classifyByTextPatterns
  repeat' split
  all_goals (apply validRole_base; rfl)

theorem validRole_contentParagraph (req : Requirements) (t : String) :
    validRole req (classifyContentParagraph req t) = true := by
  unfold classifyContentParagraph
  repeat' split
  all_goals (apply validRole_base; rfl)

theorem validRole_contentByStyle (req : Requirements) (strict : Bool)
    (st : DocumentState) (p : Paragraph) (t : String) :
    validRole req
      (StyleCls.classifyContentParagraphByStyle req strict st p t).1 = true := by
  simp only [StyleCls.classifyContentParagraphByStyle]
  repeat' split
  all_goals
    first
      | exact validRole_contentElements req t
      | exact validRole_specialSections req st t
      | exact validRole_byTextPatterns req t
      | (apply validRole_base; rfl)

theorem validRole_classifyParagraph (req : Requirements) (st : DocumentState)
    (text : String) :
    validRole req (classifyParagraph req st text).1 = true := by
  simp only [classifyParagraph, classifyInContentsSection]
  repeat' split
  all_goals
    first
      | exact validRole_contentParagraph req (pyStrip text)
      | (apply validRole_base; rfl)

set_option maxHeartbeats 1000000 in
theorem validRole_classifyParagraphByStyle (req : Requirements)
    (strict : Bool) (st : DocumentState) (p : Paragraph) (text : String) :
    validRole req
      (StyleCls.classifyParagraphByStyle req strict st p text).1 = true := by
  simp only [StyleCls.classifyParagraphByStyle,
    StyleCls.classifyInContentsSectionByStyle]
  repeat' split
  all_goals
    first
      | exact validRole_byTextPatterns req (pyStrip text)
      | exact validRole_contentByStyle req strict st.startMainContent p
          (pyStrip text)
      | exact validRole_contentByStyle req strict st p (pyStrip text)
      | (apply validRole_base; rfl)

/-! ## C1 — exhaustive classification -/

/-- C1: for every requirements model and classifier state, empty text
classifies as `skip`, and both classifiers always return a role of the fixed
enumeration (`skip`, `h1`..`h4`, `list`, `regular`, `references_header`,
`bibliography_entry`, `bibliography_continuation`, `table_caption`,
`figure_caption`, `figure_image`, `formula`, `formula_numbering`,
`formula_explanation`, or `special_<section-name>` for a section of the
requirements model). -/
theorem c1_exhaustive_classification (req : Requirements) (strict : Bool)
    (st : DocumentState) (p : Paragraph) (text : String) :
    (text = "" → (classifyParagraph req st text).1 = "skip" ∧
      (StyleCls.classifyParagraphByStyle req strict st p text).1 = "skip") ∧
    validRole req (classifyParagraph req st text).1 = true ∧
    validRole req
      (StyleCls.classifyParagraphByStyle req strict st p text).1 = true := by
  refine ⟨?_, validRole_classifyParagraph req st text,
    validRole_classifyParagraphByStyle req strict st p text⟩
  intro h
  subst h
  exact ⟨rfl, rfl⟩

/-- Witness for C1 at the default requirements, empty and non-empty text. -/
theorem c1_exhaustive_classification_witness :
    (classifyParagraph defaultRequirements initialDocumentState "").1
      = "skip" ∧
    (StyleCls.classifyParagraphByStyle defaultRequirements false
        initialDocumentState { runs := [] } "").1 = "skip" ∧
    validRole defaultRequirements
      (classifyParagraph defaultRequirements initialDocumentState
        "Обычный текст").1 = true ∧
    validRole defaultRequirements
      (StyleCls.classifyParagraphByStyle defaultRequirements false
        initialDocumentState { runs := [{ text := "Обычный текст" }] }
        "Обычный текст").1 = true :=
  ⟨((c1_exhaustive_classification defaultRequirements false
      initialDocumentState { runs := [] } "").1 rfl).1,
   ((c1_exhaustive_classification defaultRequirements false
      initialDocumentState { runs := [] } "").1 rfl).2,
   (c1_exhaustive_classification defaultRequirements false
      initialDocumentState { runs := [] } "Обычный текст").2.1,
   (c1_exhaustive_classification defaultRequirements false
      initialDocumentState { runs := [{ text := "Обычный текст" }]
        } "Обычный текст").2.2⟩

/-! ## C2 helper lemmas — the dispatch pass and the H1 counter -/

theorem withRoleCount_h1Count (vs : VKRState) (k : String)
    (res : Option Paragraph) :
    (withRoleCount vs k res).1.h1Count = vs.h1Count := by
  unfold withRoleCount
  cases res <;> rfl

theorem ite_fst_h1Count (c : Prop) [inst : Decidable c]
    (x y : VKRState × Option Paragraph) (n : Nat)
    (hx : c → x.1.h1Count = n) (hy : ¬c → y.1.h1Count = n) :
    (if c then x else y).1.h1Count = n := by
  by_cases h : c
  · rw [if_pos h]; exact hx h
  · rw [if_neg h]; exact hy h

set_option maxHeartbeats 1600000 in
theorem applyParagraphFormatting_h1Count_ne (req : Requirements)
    (vs : VKRState) (role : String) (p : Paragraph) (h : role ≠ "h1") :
    (applyParagraphFormatting req vs role p).1.h1Count = vs.h1Count := by
  have hb : (role == "h1") = false := beq_eq_false_iff_ne.mpr h
  unfold applyParagraphFormatting
  refine ite_fst_h1Count _ _ _ _ (fun _ => rfl) ?_
  intro _
  refine ite_fst_h1Count _ _ _ _
    (fun hc => absurd (hb.symm.trans hc) Bool.false_ne_true) ?_
  intro _
  refine ite_fst_h1Count _ _ _ _ (fun _ => withRoleCount_h1Count _ _ _) ?_
  intro _
  refine ite_fst_h1Count _ _ _ _ (fun _ => withRoleCount_h1Count _ _ _) ?_
  intro _
  refine ite_fst_h1Count _ _ _ _ (fun _ => withRoleCount_h1Count _ _ _) ?_
  intro _
  refine ite_fst_h1Count _ _ _ _ (fun _ => withRoleCount_h1Count _ _ _) ?_
  intro _
  refine ite_fst_h1Count _ _ _ _ (fun _ => withRoleCount_h1Count _ _ _) ?_
  intro _
  refine ite_fst_h1Count _ _ _ _ (fun _ => withRoleCount_h1Count _ _ _) ?_
  intro _
  refine ite_fst_h1Count _ _ _ _ (fun _ => withRoleCount_h1Count _ _ _) ?_
  intro _
  refine ite_fst_h1Count _ _ _ _ (fun _ => withRoleCount_h1Count _ _ _) ?_
  intro _
  refine ite_fst_h1Count _ _ _ _ (fun _ => withRoleCount_h1Count _ _ _) ?_
  intro _
  refine ite_fst_h1Count _ _ _ _ (fun _ => withRoleCount_h1Count _ _ _) ?_
  intro _
  refine ite_fst_h1Count _ _ _ _ (fun _ => withRoleCount_h1Count _ _ _) ?_
  intro _
  refine ite_fst_h1Count _ _ _ _ (fun _ => withRoleCount_h1Count _ _ _) ?_
  intro _
  refine ite_fst_h1Count _ _ _ _ (fun _ => withRoleCount_h1Count _ _ _) ?_
  intro _
  refine ite_fst_h1Count _ _ _ _ (fun _ => withRoleCount_h1Count _ _ _) ?_
  intro _
  refine ite_fst_h1Count _ _ _ _ (fun _ => withRoleCount_h1Count _ _ _) ?_
  intro _
  apply withRoleCount_h1Count

theorem processClassified_append (req : Requirements) (vs : VKRState)
    (xs ys : List (String × Paragraph)) :
    processClassified req vs (xs ++ ys)
      = ((processClassified req (processClassified req vs xs).1 ys).1,
         (processClassified req vs xs).2
           ++ (processClassified req (processClassified req vs xs).1 ys).2) := by
  induction xs generalizing vs with
  | nil => simp [processClassified]
  | cons hd tl ih => simp [processClassified, ih]

theorem processClassified_noH1 (req : Requirements) (vs : VKRState)
    (xs : List (String × Paragraph)) (h : ∀ x ∈ xs, x.1 ≠ "h1") :
    (processClassified req vs xs).1.h1Count = vs.h1Count := by
  induction xs generalizing vs with
  | nil => rfl
  | cons hd tl ih =>
    simp only [processClassified]
    rw [ih _ (fun x hx => h x (List.mem_cons_of_mem hd hx))]
    exact applyParagraphFormatting_h1Count_ne req vs hd.1 hd.2
      (h hd (List.mem_cons_self hd tl))

theorem processClassified_length (req : Requirements) (vs : VKRState)
    (xs : List (String × Paragraph)) :
    (processClassified req vs xs).2.length = xs.length := by
  induction xs generalizing vs with
  | nil => rfl
  | cons hd tl ih => simp [processClassified, ih]

theorem applyParagraphFormatting_h1 (req : Requirements) (vs : VKRState)
    (p : Paragraph) (q : Paragraph)
    (hq : formatH1 req.h1Cfg p vs.h1Count = some q) :
    applyParagraphFormatting req vs "h1" p = (h1Step vs, some q) := by
  unfold applyParagraphFormatting withRoleCount h1Step
  simp [hq]

theorem processClassified_cons_h1 (req : Requirements) (vs : VKRState)
    (p : Paragraph) (rest : List (String × Paragraph)) (q : Paragraph)
    (hq : formatH1 req.h1Cfg p vs.h1Count = some q) :
    processClassified req vs (("h1", p) :: rest)
      = ((processClassified req (h1Step vs) rest).1,
         some q :: (processClassified req (h1Step vs) rest).2) := by
  simp only [processClassified]
  rw [applyParagraphFormatting_h1 req vs p q hq]

theorem formatH1_isSome (cfg : HeadingConfig) (p : Paragraph) (n : Nat)
    (hal : (alignMap cfg.alignment).isSome = true) :
    (formatH1 cfg p n).isSome = true := by
  unfold formatH1
  cases h : alignMap cfg.alignment with
  | none => rw [h] at hal; simp at hal
  | some al => simp [h]

theorem formatH1_pageBreak (cfg : HeadingConfig) (p : Paragraph) (n : Nat)
    (q : Paragraph) (hpb : cfg.pageBreakBefore = true)
    (hq : formatH1 cfg p n = some q) :
    q.pageBreakBefore = (decide (0 < n) || p.pageBreakBefore) := by
  simp only [formatH1] at hq
  cases hal : alignMap cfg.alignment with
  | none => rw [hal] at hq; simp at hq
  | some al =>
    rw [hal] at hq
    obtain rfl := Option.some.inj hq
    rw [hpb]
    cases hn : decide (0 < n) with
    | true =>
      simp only [hn, Bool.true_and, if_pos]
      cases ht : cfg.textTransform == "uppercase" <;>
        simp [ht, addPageBreakBefore]
    | false =>
      simp only [hn, Bool.true_and, Bool.false_eq_true, if_false]
      cases ht : cfg.textTransform == "uppercase" <;>
        simp [ht, applyFontFormatting, makeTextUppercase]

/-! ## C2 — the H1 page-break rule -/

/-- C2: in a dispatch pass over classified paragraphs containing exactly
three `h1` paragraphs (none of them with a pre-existing page break), the
orchestrator hands `format_h1` the count of previously formatted H1s
(0, 1, 2), and with `page_break_before` enabled the first H1 output carries
no page break while the second and third do — the break is added exactly
when the count is positive. -/
theorem c2_h1_page_break_rule (req : Requirements) (vs0 : VKRState)
    (a b c d : List (String × Paragraph)) (p1 p2 p3 : Paragraph)
    (hpb : req.h1Cfg.pageBreakBefore = true)
    (hal : (alignMap req.h1Cfg.alignment).isSome = true)
    (hc0 : vs0.h1Count = 0)
    (ha : ∀ x ∈ a, x.1 ≠ "h1") (hb : ∀ x ∈ b, x.1 ≠ "h1")
    (hc : ∀ x ∈ c, x.1 ≠ "h1")
    (hp1 : p1.pageBreakBefore = false) (hp2 : p2.pageBreakBefore = false)
    (hp3 : p3.pageBreakBefore = false) :
    ∃ (oA oB oC oD : List (Option Paragraph)) (q1 q2 q3 : Paragraph),
      (processClassified req vs0
          (a ++ ("h1", p1) :: (b ++ ("h1", p2) :: (c ++ ("h1", p3) :: d)))).2
        = oA ++ some q1 :: (oB ++ some q2 :: (oC ++ some q3 :: oD)) ∧
      oA.length = a.length ∧ oB.length = b.length ∧ oC.length = c.length ∧
      formatH1 req.h1Cfg p1 0 = some q1 ∧
      formatH1 req.h1Cfg p2 1 = some q2 ∧
      formatH1 req.h1Cfg p3 2 = some q3 ∧
      q1.pageBreakBefore = false ∧
      q2.pageBreakBefore = true ∧
      q3.pageBreakBefore = true := by
  obtain ⟨q1, hq1⟩ :=
    Option.isSome_iff_exists.mp (formatH1_isSome req.h1Cfg p1 0 hal)
  obtain ⟨q2, hq2⟩ :=
    Option.isSome_iff_exists.mp (formatH1_isSome req.h1Cfg p2 1 hal)
  obtain ⟨q3, hq3⟩ :=
    Option.isSome_iff_exists.mp (formatH1_isSome req.h1Cfg p3 2 hal)
  have hA : (processClassified req vs0 a).1.h1Count = 0 := by
    rw [processClassified_noH1 req vs0 a ha, hc0]
  rw [processClassified_append req vs0 a]
  rw [processClassified_cons_h1 req _ p1 _ q1 (by rw [hA]; exact hq1)]
  have hB : (processClassified req
      (h1Step (processClassified req vs0 a).1) b).1.h1Count = 1 := by
    rw [processClassified_noH1 _ _ _ hb]
    show (processClassified req vs0 a).1.h1Count + 1 = 1
    rw [hA]
  rw [processClassified_append req (h1Step (processClassified req vs0 a).1) b]
  rw [processClassified_cons_h1 req _ p2 _ q2 (by rw [hB]; exact hq2)]
  have hC : (processClassified req
      (h1Step (processClassified req
        (h1Step (processClassified req vs0 a).1) b).1) c).1.h1Count = 2 := by
    rw [processClassified_noH1 _ _ _ hc]
    show (processClassified req
      (h1Step (processClassified req vs0 a).1) b).1.h1Count + 1 = 2
    rw [hB]
  rw [processClassified_append req
    (h1Step (processClassified req
      (h1Step (processClassified req vs0 a).1) b).1) c]
  rw [processClassified_cons_h1 req _ p3 _ q3 (by rw [hC]; exact hq3)]
  refine ⟨(processClassified req vs0 a).2,
    (processClassified req (h1Step (processClassified req vs0 a).1) b).2,
    (processClassified req
      (h1Step (processClassified req
        (h1Step (processClassified req vs0 a).1) b).1) c).2,
    (processClassified req
      (h1Step (processClassified req
        (h1Step (processClassified req
          (h1Step (processClassified req vs0 a).1) b).1) c).1) d).2,
    q1, q2, q3, rfl,
    processClassified_length req vs0 a,
    processClassified_length req _ b,
    processClassified_length req _ c, hq1, hq2, hq3, ?_, ?_, ?_⟩
  · rw [formatH1_pageBreak req.h1Cfg p1 0 q1 hpb hq1, hp1]
    rfl
  · rw [formatH1_pageBreak req.h1Cfg p2 1 q2 hpb hq2, hp2]
    rfl
  · rw [formatH1_pageBreak req.h1Cfg p3 2 q3 hpb hq3, hp3]
    rfl

/-- Witness for C2 at the default requirements and three concrete
H1-classified paragraphs. -/
theorem c2_h1_page_break_rule_witness :
    ∃ (oA oB oC oD : List (Option Paragraph)) (q1 q2 q3 : Paragraph),
      (processClassified defaultRequirements {}
          (([] : List (String × Paragraph)) ++
            ("h1", ({ runs := [{ text := "1. ПЕРВАЯ" }] } : Paragraph)) ::
            (([] : List (String × Paragraph)) ++
              ("h1", ({ runs := [{ text := "2. ВТОРАЯ" }] } : Paragraph)) ::
              (([] : List (String × Paragraph)) ++
                ("h1", ({ runs := [{ text := "3. ТРЕТЬЯ" }] } : Paragraph)) ::
                ([] : List (String × Paragraph)))))).2
        = oA ++ some q1 :: (oB ++ some q2 :: (oC ++ some q3 :: oD)) ∧
      oA.length = ([] : List (String × Paragraph)).length ∧
      oB.length = ([] : List (String × Paragraph)).length ∧
      oC.length = ([] : List (String × Paragraph)).length ∧
      formatH1 defaultRequirements.h1Cfg
        { runs := [{ text := "1. ПЕРВАЯ" }] } 0 = some q1 ∧
      formatH1 defaultRequirements.h1Cfg
        { runs := [{ text := "2. ВТОРАЯ" }] } 1 = some q2 ∧
      formatH1 defaultRequirements.h1Cfg
        { runs := [{ text := "3. ТРЕТЬЯ" }] } 2 = some q3 ∧
      q1.pageBreakBefore = false ∧
      q2.pageBreakBefore = true ∧
      q3.pageBreakBefore = true :=
  c2_h1_page_break_rule defaultRequirements {} [] [] [] []
    { runs := [{ text := "1. ПЕРВАЯ" }] }
    { runs := [{ text := "2. ВТОРАЯ" }] }
    { runs := [{ text := "3. ТРЕТЬЯ" }] }
    (by decide) (by decide) rfl
    (by intro x hx; cases hx) (by intro x hx; cases hx)
    (by intro x hx; cases hx) rfl rfl rfl

/-! ## C6 — bibliography entry/continuation split -/

/-- Counterexample for C6: with the classifier in the references sub-state,
the public `classify_paragraph_by_style` does NOT classify
`"1. Иванов И.И. Заголовок. — М., 2020."` as `bibliography_entry` — the
title-page detector fires on the surname-plus-initials pattern first and the
paragraph is skipped. -/
theorem c6_counterexample_title_detector_intercepts :
    (StyleCls.classifyParagraphByStyle defaultRequirements false
        { inTitleSection := false, inContentsSection := false,
          inReferencesSection := true, foundMainContent := true }
        { runs := [{ text := "1. Иванов И.И. Заголовок. — М., 2020." }],
          styleName := some "Normal" }
        "1. Иванов И.И. Заголовок. — М., 2020.").1 = "skip" ∧
    ContentDetector.isTitlePageContent
        "1. Иванов И.И. Заголовок. — М., 2020." = true ∧
    "skip" ≠ "bibliography_entry" := by
  refine ⟨by decide, by decide, by decide⟩

/-- C6 (amended): the entry/continuation split holds at the special-sections
classification stage (`_classify_special_sections`, the routine reached when
a recognised-style paragraph is classified in the references sub-state):
with `in_references_section = true`, `"1. Иванов И.И. Заголовок. — М.,
2020."` yields `bibliography_entry` and `"— 200 с."` yields
`bibliography_continuation`. -/
theorem c6_bibliography_split (st : DocumentState)
    (h : st.inReferencesSection = true) :
    StyleCls.classifySpecialSections defaultRequirements st
        "1. Иванов И.И. Заголовок. — М., 2020."
      = ("bibliography_entry", st) ∧
    StyleCls.classifySpecialSections defaultRequirements st "— 200 с."
      = ("bibliography_continuation", st) := by
  obtain ⟨t1, c1, r1, f1, pg⟩ := st
  simp only at h
  subst h
  exact ⟨rfl, rfl⟩

/-- Witness for C6 (amended) at a concrete references-section state. -/
theorem c6_bibliography_split_witness :
    StyleCls.classifySpecialSections defaultRequirements
        { inTitleSection := false, inContentsSection := false,
          inReferencesSection := true, foundMainContent := true }
        "1. Иванов И.И. Заголовок. — М., 2020."
      = ("bibliography_entry",
         { inTitleSection := false, inContentsSection := false,
           inReferencesSection := true, foundMainContent := true }) ∧
    StyleCls.classifySpecialSections defaultRequirements
        { inTitleSection := false, inContentsSection := false,
          inReferencesSection := true, foundMainContent := true }
        "— 200 с."
      = ("bibliography_continuation",
         { inTitleSection := false, inContentsSection := false,
           inReferencesSection := true, foundMainContent := true }) :=
  c6_bibliography_split
    { inTitleSection := false, inContentsSection := false,
      inReferencesSection := true, foundMainContent := true } rfl

/-! ## C7 — H1-style / special-section tie-break -/

/-- Counterexample for C7: a paragraph with an H1 style whose text matches a
special-section keyword but also a higher-priority content-element pattern
(the math-indicator `=` in "ВВЕДЕНИЕ = 1") is classified `formula` — neither
by the special-section handler nor as `h1` — so the tie-break claim does not
hold for every H1-styled paragraph. -/
theorem c7_counterexample_content_priority :
    StyleCls.isH1Style (StyleCls.getStyleName
        { runs := [{ text := "ВВЕДЕНИЕ = 1" }],
          styleName := some "Heading 1" }) = true ∧
    StyleCls.isSpecialH1Section defaultRequirements "ВВЕДЕНИЕ = 1" = true ∧
    StyleCls.isNumberedChapter "ВВЕДЕНИЕ = 1" = false ∧
    (StyleCls.classifyContentParagraphByStyle defaultRequirements false
        { inTitleSection := false, foundMainContent := true }
        { runs := [{ text := "ВВЕДЕНИЕ = 1" }], styleName := some "Heading 1" }
        "ВВЕДЕНИЕ = 1").1 = "formula" ∧
    (StyleCls.classifySpecialSections defaultRequirements
        { inTitleSection := false, foundMainContent := true }
        "ВВЕДЕНИЕ = 1").1 = "special_introduction" := by
  refine ⟨by decide, by decide, by decide, by decide, by decide⟩

/-- C7 (amended): for a paragraph whose style matches an H1 heading style,
that contains no image and whose text matches none of the higher-priority
content-element detectors, the tie-break holds: a numbered-chapter text is
classified `h1`, and otherwise a text matching a special-section keyword is
routed to the special-section handler. -/
theorem c7_h1_special_tiebreak (req : Requirements) (strict : Bool)
    (st : DocumentState) (p : Paragraph) (text : String)
    (hstyle : StyleCls.isH1Style (StyleCls.getStyleName p) = true)
    (himg : StyleCls.containsImage p = false)
    (helem : StyleCls.classifyContentElements req text = "regular") :
    (StyleCls.isNumberedChapter text = true →
        StyleCls.classifyContentParagraphByStyle req strict st p text
          = ("h1", st)) ∧
    (StyleCls.isNumberedChapter text = false →
      StyleCls.isSpecialH1Section req text = true →
        StyleCls.classifyContentParagraphByStyle req strict st p text
          = StyleCls.classifySpecialSections req st text) := by
  constructor
  · intro hnum
    simp [StyleCls.classifyContentParagraphByStyle, hstyle, himg, helem, hnum]
  · intro hnum hspec
    simp [StyleCls.classifyContentParagraphByStyle, hstyle, himg, helem,
      hnum, hspec]

/-- Witness for C7 (amended): "1. ВВЕДЕНИЕ" (numbered) stays `h1`,
"ВВЕДЕНИЕ" (special keyword, not numbered) goes to the special handler. -/
theorem c7_h1_special_tiebreak_witness :
    StyleCls.classifyContentParagraphByStyle defaultRequirements false
        { inTitleSection := false, foundMainContent := true }
        { runs := [{ text := "1. ВВЕДЕНИЕ" }], styleName := some "Heading 1" }
        "1. ВВЕДЕНИЕ"
      = ("h1", { inTitleSection := false, foundMainContent := true }) ∧
    StyleCls.classifyContentParagraphByStyle defaultRequirements false
        { inTitleSection := false, foundMainContent := true }
        { runs := [{ text := "ВВЕДЕНИЕ" }], styleName := some "Heading 1" }
        "ВВЕДЕНИЕ"
      = StyleCls.classifySpecialSections defaultRequirements
          { inTitleSection := false, foundMainContent := true } "ВВЕДЕНИЕ" :=
  ⟨(c7_h1_special_tiebreak defaultRequirements false
      { inTitleSection := false, foundMainContent := true }
      { runs := [{ text := "1. ВВЕДЕНИЕ" }], styleName := some "Heading 1" }
      "1. ВВЕДЕНИЕ" (by decide) (by decide) (by decide)).1 (by decide),
   (c7_h1_special_tiebreak defaultRequirements false
      { inTitleSection := false, foundMainContent := true }
      { runs := [{ text := "ВВЕДЕНИЕ" }], styleName := some "Heading 1" }
      "ВВЕДЕНИЕ" (by decide) (by decide) (by decide)).2 (by decide) (by decide)⟩

/-- Witness for C4 at concrete states and inputs. -/
theorem c4_scan_state_monotonic_witness :
    (applyStateOp .refs
      { inTitleSection := false, inContentsSection := false,
        inReferencesSection := false, foundMainContent := true }).foundMainContent
      = true ∧
    ¬((runStateOps [.contents, .main, .refs]
          initialDocumentState).inTitleSection = true ∧
      (runStateOps [.contents, .main, .refs]
          initialDocumentState).foundMainContent = true) ∧
    (classifyParagraph defaultRequirements
      { inTitleSection := false, inContentsSection := false,
        inReferencesSection := false, foundMainContent := true }
      "Обычный текст").2.foundMainContent = true ∧
    (StyleCls.classifyParagraphByStyle defaultRequirements false
      { inTitleSection := false, inContentsSection := false,
        inReferencesSection := false, foundMainContent := true }
      { runs := [{ text := "Обычный текст" }], styleName := some "Normal" }
      "Обычный текст").2.foundMainContent = true :=
  ⟨c4_scan_state_monotonic.1 .refs _ rfl,
   c4_scan_state_monotonic.2.1 [.contents, .main, .refs],
   c4_scan_state_monotonic.2.2.1 defaultRequirements _ "Обычный текст" rfl,
   c4_scan_state_monotonic.2.2.2 defaultRequirements false _ _ "Обычный текст" rfl⟩

/-! ## C8 — the error-handling contract of the entry point -/

theorem special_key_ne_errors (n : String) :
    ("special_" ++ n ++ "_formatted") ≠ "errors" := by
  intro h
  have hl := congrArg String.length h
  rw [String.length_append, String.length_append] at hl
  have h8 : "special_".length = 8 := rfl
  have h10 : "_formatted".length = 10 := rfl
  have h6 : "errors".length = 6 := rfl
  rw [h8, h10, h6] at hl
  omega

theorem withRoleCount_errors (vs : VKRState) (k : String)
    (res : Option Paragraph) (h : k ≠ "errors") :
    statCount (withRoleCount vs k res).1.stats "errors"
      = statCount vs.stats "errors" := by
  unfold withRoleCount
  cases res with
  | none => rfl
  | some q => exact statCount_increment_ne vs.stats k "errors" (Ne.symm h)

theorem ite_fst_errors (c : Prop) [inst : Decidable c]
    (x y : VKRState × Option Paragraph) (n : Nat)
    (hx : c → statCount x.1.stats "errors" = n)
    (hy : ¬c → statCount y.1.stats "errors" = n) :
    statCount (if c then x else y).1.stats "errors" = n := by
  by_cases h : c
  · rw [if_pos h]; exact hx h
  · rw [if_neg h]; exact hy h

set_option maxHeartbeats 1600000 in
theorem applyParagraphFormatting_errors (req : Requirements) (vs : VKRState)
    (role : String) (p : Paragraph) :
    statCount (applyParagraphFormatting req vs role p).1.stats "errors"
      = statCount vs.stats "errors" := by
  unfold applyParagraphFormatting
  refine ite_fst_errors _ _ _ _
    (fun _ => statCount_increment_ne vs.stats "skipped_paragraphs" "errors"
      (by decide)) ?_
  intro _
  refine ite_fst_errors _ _ _ _
    (fun _ => withRoleCount_errors _ "h1_formatted" _ (by decide)) ?_
  intro _
  refine ite_fst_errors _ _ _ _
    (fun _ => withRoleCount_errors _ "h2_formatted" _ (by decide)) ?_
  intro _
  refine ite_fst_errors _ _ _ _
    (fun _ => withRoleCount_errors _ "h3_formatted" _ (by decide)) ?_
  intro _
  refine ite_fst_errors _ _ _ _
    (fun _ => withRoleCount_errors _ "h4_formatted" _ (by decide)) ?_
  intro _
  refine ite_fst_errors _ _ _ _
    (fun _ => withRoleCount_errors _ "lists_formatted" _ (by decide)) ?_
  intro _
  refine ite_fst_errors _ _ _ _
    (fun _ => withRoleCount_errors _ "references_headers_formatted" _ (by decide)) ?_
  intro _
  refine ite_fst_errors _ _ _ _
    (fun _ => withRoleCount_errors _ "bibliography_entries_formatted" _ (by decide)) ?_
  intro _
  refine ite_fst_errors _ _ _ _
    (fun _ => withRoleCount_errors _ "bibliography_continuations_formatted" _ (by decide)) ?_
  intro _
  refine ite_fst_errors _ _ _ _
    (fun _ => withRoleCount_errors _ "references_text_formatted" _ (by decide)) ?_
  intro _
  refine ite_fst_errors _ _ _ _
    (fun _ => withRoleCount_errors _
      ("special_" ++ (role.replace "special_" "") ++ "_formatted") _
      (special_key_ne_errors _)) ?_
  intro _
  refine ite_fst_errors _ _ _ _
    (fun _ => withRoleCount_errors _ "table_captions_formatted" _ (by decide)) ?_
  intro _
  refine ite_fst_errors _ _ _ _
    (fun _ => withRoleCount_errors _ "figure_images_formatted" _ (by decide)) ?_
  intro _
  refine ite_fst_errors _ _ _ _
    (fun _ => withRoleCount_errors _ "figure_captions_formatted" _ (by decide)) ?_
  intro _
  refine ite_fst_errors _ _ _ _
    (fun _ => withRoleCount_errors _ "formulas_formatted" _ (by decide)) ?_
  intro _
  refine ite_fst_errors _ _ _ _
    (fun _ => withRoleCount_errors _ "formula_numbering_formatted" _ (by decide)) ?_
  intro _
  refine ite_fst_errors _ _ _ _
    (fun _ => withRoleCount_errors _ "formula_explanations_formatted" _ (by decide)) ?_
  intro _
  exact withRoleCount_errors _ "regular_formatted" _ (by decide)

theorem catchStep_errors (r : VKRState × Option Paragraph) :
    statCount (catchStep r).1.stats "errors"
      = statCount r.1.stats "errors"
        + (if (catchStep r).2 = none then 1 else 0) := by
  unfold catchStep
  cases hr : r.2 with
  | some q => simp
  | none => simp [statCount_increment_self]

theorem stepParagraph_errors (req : Requirements) (u s : Bool)
    (vs : VKRState) (p : Paragraph) :
    statCount (stepParagraph req u s vs p).1.stats "errors"
      = statCount vs.stats "errors"
        + (if (stepParagraph req u s vs p).2 = none then 1 else 0) := by
  simp only [stepParagraph, catchStep_errors, applyParagraphFormatting_errors]
  rw [statCount_increment_ne vs.stats "total_paragraphs" "errors" (by decide)]

theorem stepTable_errors (req : Requirements) (vs : VKRState) (t : Table) :
    statCount (stepTable req vs t).stats "errors"
      = statCount vs.stats "errors"
        + (if formatTable req t = none then 1 else 0) := by
  unfold stepTable
  cases hf : formatTable req t with
  | some t2 =>
    simp [statCount_increment_ne vs.stats "tables_formatted" "errors"
      (by decide)]
  | none => simp [statCount_increment_self]

/-- C8: the error-handling contract of the entry point.  `format_vkr_document`
always returns a `(success, statistics)` pair (raising formatters and the
ambient I/O are modelled as `Option`/`Bool` outcomes, so nothing escapes the
boundary): a missing input file short-circuits to `success = false` with the
untouched initial statistics; a paragraph whose formatting raises is caught —
the `errors` counter grows by exactly one, and the loop continues with the
remaining paragraphs; likewise a raised table format is caught into `errors`
and the table loop continues. -/
theorem c8_error_handling_contract :
    (∀ (req : Requirements) (u s : Bool) (inp : FormatInput),
        inp.inputExists = false →
        formatVkrDocument req u s inp
          = (false, getStatistics ({} : VKRState).stats ({} : VKRState).cls)) ∧
    (∀ (req : Requirements) (u s : Bool) (vs : VKRState) (p : Paragraph)
        (rest : List Paragraph),
        processParagraphs req u s vs (p :: rest)
          = ((processParagraphs req u s (stepParagraph req u s vs p).1 rest).1,
             (stepParagraph req u s vs p).2
               :: (processParagraphs req u s
                     (stepParagraph req u s vs p).1 rest).2) ∧
        statCount (stepParagraph req u s vs p).1.stats "errors"
          = statCount vs.stats "errors"
            + (if (stepParagraph req u s vs p).2 = none then 1 else 0)) ∧
    (∀ (req : Requirements) (vs : VKRState) (t : Table) (rest : List Table),
        processTables req vs (t :: rest)
          = processTables req (stepTable req vs t) rest ∧
        statCount (stepTable req vs t).stats "errors"
          = statCount vs.stats "errors"
            + (if formatTable req t = none then 1 else 0)) := by
  refine ⟨?_, ?_, ?_⟩
  · intro req u s inp h
    simp [formatVkrDocument, formatDocument, h]
  · intro req u s vs p rest
    exact ⟨rfl, stepParagraph_errors req u s vs p⟩
  · intro req vs t rest
    exact ⟨rfl, stepTable_errors req vs t⟩

/-- Witness for C8: a missing input file at the default requirements, a
concrete paragraph step and a concrete table step. -/
theorem c8_error_handling_contract_witness :
    (formatVkrDocument defaultRequirements false false
        { inputExists := false, loadResult := none,
          saveOk := true, outputExistsAfterSave := true }
      = (false, getStatistics ({} : VKRState).stats ({} : VKRState).cls)) ∧
    (statCount (stepParagraph defaultRequirements false false {}
          { runs := [{ text := "Пример" }] }).1.stats "errors"
      = statCount ({} : VKRState).stats "errors"
        + (if (stepParagraph defaultRequirements false false {}
                 { runs := [{ text := "Пример" }] }).2 = none
           then 1 else 0)) ∧
    (processTables defaultRequirements {} ({} :: [])
      = processTables defaultRequirements
          (stepTable defaultRequirements {} {}) []) :=
  ⟨c8_error_handling_contract.1 defaultRequirements false false _ rfl,
   (c8_error_handling_contract.2.1 defaultRequirements false false {}
      { runs := [{ text := "Пример" }] } []).2,
   (c8_error_handling_contract.2.2 defaultRequirements {} {} []).1⟩

end VKR

/-! Sanity checks on the string primitives and the embedded detectors. -/

open VKR in
example : pyUpper "1. Введение" = "1. ВВЕДЕНИЕ" := by decide

open VKR in
example : ContentDetector.isContentsLine "1. Введение    5" = true := by decide

open VKR in
example : ContentDetector.isContentsLine "1. ВВЕДЕНИЕ" = false := by decide

open VKR in
example : ContentDetector.isMainContentStart "1. ВВЕДЕНИЕ" = true := by decide

open VKR in
example : ContentDetector.isContentsHeader "СОДЕРЖАНИЕ" = true := by decide

open VKR in
example : ContentDetector.isTitlePageContent "1. Иванов И.И. Заголовок. — М., 2020." = true := by
  decide
